import Mathlib

/-! # Per-endpoint default layer behaviour (`behavior_default_layer.c`)

A shallow embedding of `src/behaviors/behavior_default_layer.c`.

* The file-scope variable `default_layers` and the calls made to the external
  subsystems (settings store, keymap, read callback) are carried in an explicit
  `State`: the table itself plus a chronological log of external calls.
* The collaborators the file only calls (`settings_save_one`,
  `zmk_keymap_layer_to`, `zmk_endpoints_selected`, `settings_register`, the
  content of the store) are oracles gathered in `Env`.
* The constants `ZMK_ENDPOINT_USB_COUNT`, `ZMK_ENDPOINT_BLE_COUNT` and
  `ZMK_KEYMAP_LAYERS_LEN` come from ZMK headers and are parameters (`Config`).
* `uint8_t` values are natural numbers; the one narrowing conversion of the file
  (`binding->param1`, 32 bit, to the `uint8_t layer` parameter) is an explicit
  `% 256`.
* A failed `__ASSERT` or an access outside `usb[]` / `ble[]` is the result `none`.
* `LOG_*` calls have no effect on the state and are left out.
-/

namespace DefaultLayer

/-! ## Constants -/

/-- Compile-time constants taken from the ZMK headers. -/
structure Config where
  ZMK_ENDPOINT_USB_COUNT : Nat
  ZMK_ENDPOINT_BLE_COUNT : Nat
  ZMK_KEYMAP_LAYERS_LEN : Nat
  deriving DecidableEq, Repr

/-- The errno value `EINVAL`. -/
def EINVAL : Int := 22

/-- The errno value `ENOENT`. -/
def ENOENT : Int := 2

/-- Event manager result: let the event reach the other listeners. -/
def ZMK_EV_EVENT_BUBBLE : Int := 0

/-- Behaviour result: the binding consumed the event. -/
def ZMK_BEHAVIOR_OPAQUE : Int := 0

/-! ## Data model -/

/-- The transports the two `switch` statements of the file distinguish. -/
inductive zmk_transport where
  | ZMK_TRANSPORT_USB
  | ZMK_TRANSPORT_BLE
  deriving DecidableEq, Repr

/-- An endpoint: `transport` and `ble.profile_index` (read only for BLE). -/
structure zmk_endpoint_instance where
  transport : zmk_transport
  ble_profile_index : Nat
  deriving DecidableEq, Repr

/-- The `struct default_layer_settings_t`: `uint8_t usb[ZMK_ENDPOINT_USB_COUNT]`
followed by `uint8_t ble[ZMK_ENDPOINT_BLE_COUNT]`. -/
structure default_layer_settings_t where
  usb : List Nat
  ble : List Nat
  deriving DecidableEq, Repr

/-- The value of `sizeof(default_layers)`: two arrays of bytes, no padding. -/
def sizeof_default_layers (cfg : Config) : Nat :=
  cfg.ZMK_ENDPOINT_USB_COUNT + cfg.ZMK_ENDPOINT_BLE_COUNT

/-- The initialiser `= {0}`: every entry of both arrays is zero. -/
def zero_table (cfg : Config) : default_layer_settings_t :=
  { usb := List.replicate cfg.ZMK_ENDPOINT_USB_COUNT 0
    ble := List.replicate cfg.ZMK_ENDPOINT_BLE_COUNT 0 }

/-- The bytes of the object `default_layers`, as `&default_layers` exposes them. -/
def table_bytes (t : default_layer_settings_t) : List Nat :=
  t.usb ++ t.ble

/-- The table held by an object whose bytes are `b`. -/
def table_of_bytes (cfg : Config) (b : List Nat) : default_layer_settings_t :=
  { usb := b.take cfg.ZMK_ENDPOINT_USB_COUNT
    ble := b.drop cfg.ZMK_ENDPOINT_USB_COUNT }

/-- A call to an external subsystem, with what it returned. -/
inductive Call where
  | settings_save_one (name : String) (value : List Nat) (ret : Int)
  | zmk_keymap_layer_to (layer : Nat) (ret : Int)
  | read_cb (len : Nat) (ret : Int)
  | settings_subsys_init
  | settings_register (ret : Int)
  | settings_load_subtree (subtree : String)
  deriving DecidableEq, Repr

/-- The mutable state: the variable `default_layers` and the log of external calls. -/
structure State where
  default_layers : default_layer_settings_t
  trace : List Call
  deriving DecidableEq, Repr

/-- A `settings_read_cb`: asked for at most `len` bytes, it returns its result code
and the bytes it stored at the start of the destination buffer. -/
abbrev settings_read_cb := Nat → Int × List Nat

/-- One stored item of the settings subtree: key below the subtree, length, reader. -/
structure StoredItem where
  name : String
  len : Nat
  read_cb : settings_read_cb

/-- The behaviour of the collaborators during one entry into the component. -/
structure Env where
  zmk_endpoints_selected : zmk_endpoint_instance
  settings_save_one : String → List Nat → Int
  zmk_keymap_layer_to : Nat → Int
  settings_register : Int
  stored : List StoredItem

/-- State at process start: zero table, nothing called yet. -/
def init_state (cfg : Config) : State :=
  { default_layers := zero_table cfg, trace := [] }

/-- The table has the array sizes the configuration declares. -/
def sized (cfg : Config) (t : default_layer_settings_t) : Prop :=
  t.usb.length = cfg.ZMK_ENDPOINT_USB_COUNT ∧ t.ble.length = cfg.ZMK_ENDPOINT_BLE_COUNT

instance (cfg : Config) (t : default_layer_settings_t) : Decidable (sized cfg t) := by
  unfold sized; infer_instance

/-- Memory after a callback stored `written` (at most `len` bytes) at the start of a
buffer that held `mem`. -/
def write_bytes (written : List Nat) (len : Nat) (mem : List Nat) : List Nat :=
  written.take len ++ mem.drop (written.take len).length

/-! ## `save_default_layer_setting` and `apply_default_layer_config` -/

/-- Lines 32-61. `layer` is the `uint8_t` parameter. -/
def save_default_layer_setting (cfg : Config) (env : Env) (layer : Nat)
    (endpoint : zmk_endpoint_instance) (s : State) : Option (Int × State) :=
  if layer ≥ cfg.ZMK_KEYMAP_LAYERS_LEN then
    some (-EINVAL, s)
  else
    let written : Option default_layer_settings_t :=
      match endpoint.transport with
      | zmk_transport.ZMK_TRANSPORT_USB =>
        if cfg.ZMK_ENDPOINT_USB_COUNT = 1 ∧ 0 < s.default_layers.usb.length then
          some { s.default_layers with usb := s.default_layers.usb.set 0 layer }
        else none
      | zmk_transport.ZMK_TRANSPORT_BLE =>
        if endpoint.ble_profile_index < cfg.ZMK_ENDPOINT_BLE_COUNT
            ∧ endpoint.ble_profile_index < s.default_layers.ble.length then
          some { s.default_layers with
                 ble := s.default_layers.ble.set endpoint.ble_profile_index layer }
        else none
    match written with
    | none => none
    | some t =>
      let ret := env.settings_save_one "default_layer/settings" (table_bytes t)
      let s1 : State :=
        { default_layers := t
          trace := s.trace ++
            [Call.settings_save_one "default_layer/settings" (table_bytes t) ret] }
      if ret < 0 then some (ret, s1) else some (0, s1)

/-- Lines 64-87. -/
def apply_default_layer_config (cfg : Config) (env : Env)
    (endpoint : zmk_endpoint_instance) (s : State) : Option (Int × State) :=
  let read : Option Nat :=
    match endpoint.transport with
    | zmk_transport.ZMK_TRANSPORT_USB =>
      if cfg.ZMK_ENDPOINT_USB_COUNT = 1 then s.default_layers.usb[0]? else none
    | zmk_transport.ZMK_TRANSPORT_BLE =>
      if endpoint.ble_profile_index < cfg.ZMK_ENDPOINT_BLE_COUNT then
        s.default_layers.ble[endpoint.ble_profile_index]?
      else none
  match read with
  | none => none
  | some layer =>
    let ret := env.zmk_keymap_layer_to layer
    let s1 : State := { s with trace := s.trace ++ [Call.zmk_keymap_layer_to layer ret] }
    if ret < 0 then some (ret, s1) else some (0, s1)

/-! ## Settings handler -/

/-- Zephyr's `settings_name_steq(name, key, &next)` on the characters of both
strings: the result flag, and `next` (`none` for `NULL`). The key has to be matched
in full; the name may then end, carry on with `=`, or carry on with `/` in which
case `next` is what follows the `/`. -/
def settings_name_steq_chars : List Char → List Char → Bool × Option (List Char)
  | [], [] => (true, none)
  | c :: rest, [] =>
    if c = '/' then (true, some rest)
    else if c = '=' then (true, none)
    else (false, none)
  | [], _ :: _ => (false, none)
  | n :: ns, k :: ks =>
    if k = n ∧ n ≠ '=' then settings_name_steq_chars ns ks else (false, none)

/-- Zephyr's `settings_name_steq` on strings. -/
def settings_name_steq (name key : String) : Bool × Option (List Char) :=
  settings_name_steq_chars name.toList key.toList

/-- Lines 89-107, the `h_set` handler. -/
def default_layer_set (cfg : Config) (name : String) (len : Nat)
    (read_cb : settings_read_cb) (s : State) : Int × State :=
  let m := settings_name_steq name "settings"
  if m.1 = true ∧ m.2 = none then
    if len ≠ sizeof_default_layers cfg then
      (-EINVAL, s)
    else
      let r := read_cb (sizeof_default_layers cfg)
      let rc := r.1
      let mem := write_bytes r.2 (sizeof_default_layers cfg) (table_bytes s.default_layers)
      let s1 : State :=
        { default_layers := table_of_bytes cfg mem
          trace := s.trace ++ [Call.read_cb (sizeof_default_layers cfg) rc] }
      if rc ≥ 0 then (0, s1) else (rc, s1)
  else
    (-ENOENT, s)

/-- Zephyr's `settings_load_subtree` as this file sees it: the handler runs once
for each stored item below the subtree; its result does not stop the load. -/
def settings_load_subtree (cfg : Config) (items : List StoredItem) (s : State) : State :=
  items.foldl (fun acc it => (default_layer_set cfg it.name it.len it.read_cb acc).2) s

/-- Lines 114-126. -/
def default_layer_init (cfg : Config) (env : Env) (s : State) : Option (Int × State) :=
  let s0 : State := { s with trace := s.trace ++ [Call.settings_subsys_init] }
  let ret := env.settings_register
  let s1 : State := { s0 with trace := s0.trace ++ [Call.settings_register ret] }
  if ret ≠ 0 then
    some (ret, s1)
  else
    let s2 : State :=
      { s1 with trace := s1.trace ++ [Call.settings_load_subtree "default_layer"] }
    let s3 := settings_load_subtree cfg env.stored s2
    apply_default_layer_config cfg env env.zmk_endpoints_selected s3

/-! ## Behaviour and listener -/

/-- Lines 137-155. `param1` is `binding->param1` (`uint32_t`); passing it as the
`uint8_t layer` argument keeps its low eight bits. -/
def on_keymap_binding_pressed (cfg : Config) (env : Env) (param1 : Nat) (s : State) :
    Option (Int × State) :=
  let endpoint := env.zmk_endpoints_selected
  match save_default_layer_setting cfg env (param1 % 256) endpoint s with
  | none => none
  | some (ret, s1) =>
    if ret < 0 then some (ret, s1)
    else
      match apply_default_layer_config cfg env endpoint s1 with
      | none => none
      | some (ret2, s2) => if ret2 < 0 then some (ret2, s2) else some (0, s2)

/-- Lines 157-162. -/
def on_keymap_binding_released (s : State) : Int × State :=
  (ZMK_BEHAVIOR_OPAQUE, s)

/-- Lines 184-192. `evt` is the result of `as_zmk_endpoint_changed(eh)`, `none`
for `NULL`; only its `endpoint` field is read. -/
def endpoint_changed_cb (cfg : Config) (env : Env) (evt : Option zmk_endpoint_instance)
    (s : State) : Option (Int × State) :=
  match evt with
  | none => some (ZMK_EV_EVENT_BUBBLE, s)
  | some endpoint =>
    match apply_default_layer_config cfg env endpoint s with
    | none => none
    | some (_, s1) => some (ZMK_EV_EVENT_BUBBLE, s1)

/-! ## Entry points as events -/

/-- One entry into the component after boot, with the collaborators' behaviour
during that entry. -/
inductive Event where
  | settings_load (name : String) (len : Nat) (read_cb : settings_read_cb)
  | pressed (env : Env) (param1 : Nat)
  | released
  | endpoint_changed (env : Env) (evt : Option zmk_endpoint_instance)

/-- The state after one event; `none` when the event runs into a failed assertion. -/
def step (cfg : Config) (ev : Event) (s : State) : Option State :=
  match ev with
  | Event.settings_load name len read_cb => some (default_layer_set cfg name len read_cb s).2
  | Event.pressed env param1 => (on_keymap_binding_pressed cfg env param1 s).map Prod.snd
  | Event.released => some (on_keymap_binding_released s).2
  | Event.endpoint_changed env evt => (endpoint_changed_cb cfg env evt s).map Prod.snd

/-- The state after a sequence of events. -/
def run (cfg : Config) : List Event → State → Option State
  | [], s => some s
  | ev :: evs, s =>
    match step cfg ev s with
    | none => none
    | some s1 => run cfg evs s1

/-! ## Vocabulary of the statements -/

/-- A position of the table: an index into `usb[]` or into `ble[]`. -/
inductive Slot where
  | usb (i : Nat)
  | ble (i : Nat)
  deriving DecidableEq, Repr

/-- The position an endpoint selects: `usb[0]` or `ble[profile_index]`. -/
def slot_of (e : zmk_endpoint_instance) : Slot :=
  match e.transport with
  | zmk_transport.ZMK_TRANSPORT_USB => Slot.usb 0
  | zmk_transport.ZMK_TRANSPORT_BLE => Slot.ble e.ble_profile_index

/-- The entry at a position, `none` outside the arrays. -/
def entry (t : default_layer_settings_t) : Slot → Option Nat
  | Slot.usb i => t.usb[i]?
  | Slot.ble i => t.ble[i]?

/-- An endpoint the transport layer may hand over: USB, or BLE with a profile
index below `ZMK_ENDPOINT_BLE_COUNT`. -/
def valid_endpoint (cfg : Config) (e : zmk_endpoint_instance) : Prop :=
  match e.transport with
  | zmk_transport.ZMK_TRANSPORT_USB => True
  | zmk_transport.ZMK_TRANSPORT_BLE => e.ble_profile_index < cfg.ZMK_ENDPOINT_BLE_COUNT

instance (cfg : Config) (e : zmk_endpoint_instance) : Decidable (valid_endpoint cfg e) := by
  unfold valid_endpoint; cases e.transport <;> infer_instance

/-- Every entry of both arrays is a layer of the keymap. -/
def table_in_range (cfg : Config) (t : default_layer_settings_t) : Prop :=
  ∀ x ∈ table_bytes t, x < cfg.ZMK_KEYMAP_LAYERS_LEN

instance (cfg : Config) (t : default_layer_settings_t) : Decidable (table_in_range cfg t) := by
  unfold table_in_range; infer_instance

/-- The table with the entry at one position replaced (no change outside the
arrays). Used to name the table that `save_default_layer_setting` leaves. -/
def put (t : default_layer_settings_t) : Slot → Nat → default_layer_settings_t
  | Slot.usb i, v => { t with usb := t.usb.set i v }
  | Slot.ble i, v => { t with ble := t.ble.set i v }

/-- The bytes a settings load stores into the table are all layers of the keymap;
the other events carry no bytes. -/
def load_in_range (cfg : Config) : Event → Prop
  | Event.settings_load _ _ read_cb =>
    ∀ x ∈ (read_cb (sizeof_default_layers cfg)).2, x < cfg.ZMK_KEYMAP_LAYERS_LEN
  | _ => True

/-- The key under which the table is saved. -/
def settings_key : String := "default_layer/settings"

/-! ## Sample configuration and collaborators for concrete runs -/

/-- One USB endpoint, three BLE profiles, eight layers. -/
def sample_cfg : Config :=
  { ZMK_ENDPOINT_USB_COUNT := 1, ZMK_ENDPOINT_BLE_COUNT := 3, ZMK_KEYMAP_LAYERS_LEN := 8 }

/-- The USB endpoint. -/
def usb_endpoint : zmk_endpoint_instance :=
  { transport := zmk_transport.ZMK_TRANSPORT_USB, ble_profile_index := 0 }

/-- The BLE endpoint with profile `i`. -/
def ble_endpoint (i : Nat) : zmk_endpoint_instance :=
  { transport := zmk_transport.ZMK_TRANSPORT_BLE, ble_profile_index := i }

/-- Collaborators with a fixed selected endpoint, a store that always answers
`store_ret`, a keymap that always answers `keymap_ret`, and an empty store. -/
def sample_env (e : zmk_endpoint_instance) (store_ret keymap_ret : Int) : Env :=
  { zmk_endpoints_selected := e
    settings_save_one := fun _ _ => store_ret
    zmk_keymap_layer_to := fun _ => keymap_ret
    settings_register := 0
    stored := [] }

/-- A table with distinct entries. -/
def sample_table : default_layer_settings_t :=
  { usb := [3], ble := [1, 0, 7] }

/-- A state holding `sample_table` with an empty log. -/
def sample_state : State :=
  { default_layers := sample_table, trace := [] }

/-- A stored item with a reader that supplies `bytes` and reports their number. -/
def sample_item (name : String) (len : Nat) (bytes : List Nat) : StoredItem :=
  { name := name, len := len, read_cb := fun _ => (Int.ofNat bytes.length, bytes) }

/-- Collaborators at boot: selected endpoint, answer of `settings_register`, content
of the store, answer of the keymap. -/
def boot_env (e : zmk_endpoint_instance) (register_ret : Int) (items : List StoredItem)
    (keymap_ret : Int) : Env :=
  { zmk_endpoints_selected := e
    settings_save_one := fun _ _ => 0
    zmk_keymap_layer_to := fun _ => keymap_ret
    settings_register := register_ret
    stored := items }

/-! ## Further vocabulary: store writes and the keymap -/

/-- The store writes of a log, in order: key and payload. -/
def store_writes : List Call → List (String × List Nat)
  | [] => []
  | Call.settings_save_one name value _ :: rest => (name, value) :: store_writes rest
  | _ :: rest => store_writes rest

/-- Modelled from the spec: the keymap subsystem (`zmk_keymap_layer_to` is declared
in `zmk/keymap.h`, its body is not among the sources). The spec gives it a currently
configured layer count and a single active layer; `out_of_range` is the code it
reports for a layer outside the configured range. -/
structure Keymap where
  layer_count : Nat
  active : Nat
  out_of_range : Int
  deriving DecidableEq, Repr

/-- Modelled from the spec: `zmk_keymap_layer_to` is missing from the sources. Per
sections 4.4 and 6 it fails when the layer is out of the currently configured range,
leaving whatever layer was active, and otherwise makes the layer the single active
layer. -/
def zmk_keymap_layer_to (k : Keymap) (layer : Nat) : Int × Keymap :=
  if layer ≥ k.layer_count then (k.out_of_range, k)
  else (0, { k with active := layer })

/-- The keymap after it served the activation requests of a log, in order. -/
def keymap_after (k : Keymap) : List Call → Keymap
  | [] => k
  | Call.zmk_keymap_layer_to layer _ :: rest =>
    keymap_after (zmk_keymap_layer_to k layer).2 rest
  | _ :: rest => keymap_after k rest

/-- Collaborators whose keymap is `k`; the store accepts every write. -/
def keymap_env (e : zmk_endpoint_instance) (k : Keymap) : Env :=
  { zmk_endpoints_selected := e
    settings_save_one := fun _ _ => 0
    zmk_keymap_layer_to := fun layer => (zmk_keymap_layer_to k layer).1
    settings_register := 0
    stored := [] }

/-! ## Lemmas on the table -/

theorem entry_ext (t1 t2 : default_layer_settings_t)
    (h : ∀ sl, entry t1 sl = entry t2 sl) : t1 = t2 := by
  obtain ⟨u1, b1⟩ := t1
  obtain ⟨u2, b2⟩ := t2
  have hu : u1 = u2 := List.ext_getElem? (fun i => h (Slot.usb i))
  have hb : b1 = b2 := List.ext_getElem? (fun i => h (Slot.ble i))
  rw [hu, hb]

theorem entry_put_same (t : default_layer_settings_t) (sl : Slot) (v l : Nat)
    (h : entry t sl = some l) : entry (put t sl v) sl = some v := by
  cases sl with
  | usb i =>
    have hi : i < t.usb.length := by
      by_contra hc
      simp [entry, List.getElem?_eq_none (not_lt.mp hc)] at h
    simp [entry, put, hi]
  | ble i =>
    have hi : i < t.ble.length := by
      by_contra hc
      simp [entry, List.getElem?_eq_none (not_lt.mp hc)] at h
    simp [entry, put, hi]

theorem entry_put_other (t : default_layer_settings_t) (sl sl2 : Slot) (v : Nat)
    (h : sl2 ≠ sl) : entry (put t sl v) sl2 = entry t sl2 := by
  cases sl with
  | usb i =>
    cases sl2 with
    | usb j =>
      have hij : i ≠ j := fun hc => h (by rw [hc])
      simp [entry, put, List.getElem?_set_ne hij]
    | ble j => simp [entry, put]
  | ble i =>
    cases sl2 with
    | usb j => simp [entry, put]
    | ble j =>
      have hij : i ≠ j := fun hc => h (by rw [hc])
      simp [entry, put, List.getElem?_set_ne hij]

/-- A table that holds `v` at `sl` and agrees with `t` elsewhere is `put t sl v`. -/
theorem eq_put (t t1 : default_layer_settings_t) (sl : Slot) (v l : Nat)
    (hin : entry t sl = some l) (h1 : entry t1 sl = some v)
    (h2 : ∀ sl2, sl2 ≠ sl → entry t1 sl2 = entry t sl2) : t1 = put t sl v := by
  apply entry_ext
  intro sl2
  by_cases hs : sl2 = sl
  · rw [hs, h1, entry_put_same t sl v l hin]
  · rw [h2 sl2 hs, entry_put_other t sl sl2 v hs]

/-- The position of a valid endpoint lies inside the arrays of a sized table. -/
theorem entry_in_bounds (cfg : Config) (t : default_layer_settings_t)
    (e : zmk_endpoint_instance) (hs : sized cfg t)
    (husb : cfg.ZMK_ENDPOINT_USB_COUNT = 1) (he : valid_endpoint cfg e) :
    ∃ l, entry t (slot_of e) = some l := by
  obtain ⟨hu, hb⟩ := hs
  obtain ⟨tr, idx⟩ := e
  cases tr
  · have h0 : 0 < t.usb.length := by omega
    exact ⟨t.usb[0], by simp [entry, slot_of, h0]⟩
  · simp only [valid_endpoint] at he
    have h0 : idx < t.ble.length := by omega
    exact ⟨t.ble[idx], by simp [entry, slot_of, h0]⟩

/-! ## What the two workers compute -/

/-- The result of `save_default_layer_setting` for an accepted layer. -/
theorem save_eq (cfg : Config) (env : Env) (L : Nat) (e : zmk_endpoint_instance)
    (s : State) (hs : sized cfg s.default_layers)
    (husb : cfg.ZMK_ENDPOINT_USB_COUNT = 1) (he : valid_endpoint cfg e)
    (hL : L < cfg.ZMK_KEYMAP_LAYERS_LEN) :
    save_default_layer_setting cfg env L e s =
      some (if env.settings_save_one settings_key
                (table_bytes (put s.default_layers (slot_of e) L)) < 0
            then env.settings_save_one settings_key
                (table_bytes (put s.default_layers (slot_of e) L))
            else 0,
            { default_layers := put s.default_layers (slot_of e) L
              trace := s.trace ++ [Call.settings_save_one settings_key
                (table_bytes (put s.default_layers (slot_of e) L))
                (env.settings_save_one settings_key
                  (table_bytes (put s.default_layers (slot_of e) L)))] }) := by
  obtain ⟨hu, hb⟩ := hs
  obtain ⟨tr, idx⟩ := e
  cases tr
  · have h0 : 0 < s.default_layers.usb.length := by omega
    simp only [save_default_layer_setting, not_le.mpr hL, ge_iff_le, if_false, husb, h0,
      and_self, if_true, slot_of, put, settings_key]
    split_ifs <;> rfl
  · simp only [valid_endpoint] at he
    have h0 : idx < s.default_layers.ble.length := by omega
    simp only [save_default_layer_setting, not_le.mpr hL, ge_iff_le, if_false, he, h0,
      and_self, if_true, slot_of, put, settings_key]
    split_ifs <;> rfl

/-- The result of `save_default_layer_setting` for a rejected layer. -/
theorem save_rejected (cfg : Config) (env : Env) (L : Nat) (e : zmk_endpoint_instance)
    (s : State) (hL : cfg.ZMK_KEYMAP_LAYERS_LEN ≤ L) :
    save_default_layer_setting cfg env L e s = some (-EINVAL, s) := by
  simp [save_default_layer_setting, hL]

/-- The result of `apply_default_layer_config` when the endpoint's entry is `l`. -/
theorem apply_eq (cfg : Config) (env : Env) (e : zmk_endpoint_instance) (s : State)
    (l : Nat) (husb : cfg.ZMK_ENDPOINT_USB_COUNT = 1) (he : valid_endpoint cfg e)
    (hl : entry s.default_layers (slot_of e) = some l) :
    apply_default_layer_config cfg env e s =
      some (if env.zmk_keymap_layer_to l < 0 then env.zmk_keymap_layer_to l else 0,
            { s with trace := s.trace ++
                [Call.zmk_keymap_layer_to l (env.zmk_keymap_layer_to l)] }) := by
  obtain ⟨tr, idx⟩ := e
  cases tr
  · simp only [entry, slot_of] at hl
    simp only [apply_default_layer_config, husb, if_true, hl]
    split_ifs <;> rfl
  · simp only [valid_endpoint] at he
    simp only [entry, slot_of] at hl
    simp only [apply_default_layer_config, he, if_true, hl]
    split_ifs <;> rfl

/-- Whatever `apply_default_layer_config` returns, it leaves the table alone and
logs exactly one activation request. -/
theorem apply_some (cfg : Config) (env : Env) (e : zmk_endpoint_instance) (s : State)
    (r : Int) (s1 : State) (h : apply_default_layer_config cfg env e s = some (r, s1)) :
    ∃ l, entry s.default_layers (slot_of e) = some l
      ∧ r = (if env.zmk_keymap_layer_to l < 0 then env.zmk_keymap_layer_to l else 0)
      ∧ s1 = { s with trace := s.trace ++
                [Call.zmk_keymap_layer_to l (env.zmk_keymap_layer_to l)] } := by
  obtain ⟨tr, idx⟩ := e
  cases tr
  · simp only [apply_default_layer_config] at h
    by_cases hc : cfg.ZMK_ENDPOINT_USB_COUNT = 1
    · simp only [hc, if_true] at h
      cases hg : s.default_layers.usb[0]? with
      | none => simp [hg] at h
      | some l =>
        refine ⟨l, by simp [entry, slot_of, hg], ?_⟩
        simp only [hg] at h
        split_ifs at h with hr <;> simp at h <;> simp [hr, h.1.symm, h.2.symm]
    · simp [hc] at h
  · simp only [apply_default_layer_config] at h
    by_cases hc : idx < cfg.ZMK_ENDPOINT_BLE_COUNT
    · simp only [hc, if_true] at h
      cases hg : s.default_layers.ble[idx]? with
      | none => simp [hg] at h
      | some l =>
        refine ⟨l, by simp [entry, slot_of, hg], ?_⟩
        simp only [hg] at h
        split_ifs at h with hr <;> simp at h <;> simp [hr, h.1.symm, h.2.symm]
    · simp [hc] at h

/-- Whatever `save_default_layer_setting` returns for an accepted layer, the table
it leaves is the old one with the endpoint's entry replaced, and the log grew by the
one store write whose answer decides the result. -/
theorem save_some (cfg : Config) (env : Env) (L : Nat) (e : zmk_endpoint_instance)
    (s : State) (r : Int) (s1 : State) (hL : L < cfg.ZMK_KEYMAP_LAYERS_LEN)
    (h : save_default_layer_setting cfg env L e s = some (r, s1)) :
    ∃ l, entry s.default_layers (slot_of e) = some l
      ∧ r = (if env.settings_save_one settings_key
                (table_bytes (put s.default_layers (slot_of e) L)) < 0
             then env.settings_save_one settings_key
                (table_bytes (put s.default_layers (slot_of e) L))
             else 0)
      ∧ s1 = { default_layers := put s.default_layers (slot_of e) L
               trace := s.trace ++ [Call.settings_save_one settings_key
                 (table_bytes (put s.default_layers (slot_of e) L))
                 (env.settings_save_one settings_key
                   (table_bytes (put s.default_layers (slot_of e) L)))] } := by
  obtain ⟨tr, idx⟩ := e
  cases tr
  · simp only [save_default_layer_setting, not_le.mpr hL, ge_iff_le, if_false] at h
    by_cases hc : cfg.ZMK_ENDPOINT_USB_COUNT = 1 ∧ 0 < s.default_layers.usb.length
    · simp only [hc, and_self, if_true] at h
      refine ⟨s.default_layers.usb[0], by simp [entry, slot_of, hc.2], ?_⟩
      simp only [slot_of, put, settings_key]
      split_ifs at h with hr <;> simp at h <;> simp [hr, h.1.symm, h.2.symm]
    · simp [hc] at h
  · simp only [save_default_layer_setting, not_le.mpr hL, ge_iff_le, if_false] at h
    by_cases hc : idx < cfg.ZMK_ENDPOINT_BLE_COUNT ∧ idx < s.default_layers.ble.length
    · simp only [hc, and_self, if_true] at h
      refine ⟨s.default_layers.ble[idx], by simp [entry, slot_of, hc.2], ?_⟩
      simp only [slot_of, put, settings_key]
      split_ifs at h with hr <;> simp at h <;> simp [hr, h.1.symm, h.2.symm]
    · simp [hc] at h

/-- The result of `on_keymap_binding_pressed` when the layer passes the range check. -/
theorem pressed_eq (cfg : Config) (env : Env) (param1 : Nat) (s : State)
    (hs : sized cfg s.default_layers) (husb : cfg.ZMK_ENDPOINT_USB_COUNT = 1)
    (he : valid_endpoint cfg env.zmk_endpoints_selected)
    (hL : param1 % 256 < cfg.ZMK_KEYMAP_LAYERS_LEN) :
    on_keymap_binding_pressed cfg env param1 s =
      (if env.settings_save_one settings_key
            (table_bytes (put s.default_layers (slot_of env.zmk_endpoints_selected)
              (param1 % 256))) < 0
       then some (env.settings_save_one settings_key
            (table_bytes (put s.default_layers (slot_of env.zmk_endpoints_selected)
              (param1 % 256))),
          { default_layers :=
              put s.default_layers (slot_of env.zmk_endpoints_selected) (param1 % 256)
            trace := s.trace ++ [Call.settings_save_one settings_key
              (table_bytes (put s.default_layers (slot_of env.zmk_endpoints_selected)
                (param1 % 256)))
              (env.settings_save_one settings_key
                (table_bytes (put s.default_layers (slot_of env.zmk_endpoints_selected)
                  (param1 % 256))))] })
       else some (if env.zmk_keymap_layer_to (param1 % 256) < 0
                  then env.zmk_keymap_layer_to (param1 % 256) else 0,
          { default_layers :=
              put s.default_layers (slot_of env.zmk_endpoints_selected) (param1 % 256)
            trace := s.trace ++ [Call.settings_save_one settings_key
              (table_bytes (put s.default_layers (slot_of env.zmk_endpoints_selected)
                (param1 % 256)))
              (env.settings_save_one settings_key
                (table_bytes (put s.default_layers (slot_of env.zmk_endpoints_selected)
                  (param1 % 256)))),
              Call.zmk_keymap_layer_to (param1 % 256)
                (env.zmk_keymap_layer_to (param1 % 256))] })) := by
  obtain ⟨l, hl⟩ := entry_in_bounds cfg s.default_layers env.zmk_endpoints_selected hs husb he
  have hput := entry_put_same s.default_layers (slot_of env.zmk_endpoints_selected)
    (param1 % 256) l hl
  simp only [on_keymap_binding_pressed]
  rw [save_eq cfg env (param1 % 256) env.zmk_endpoints_selected s hs husb he hL]
  by_cases hr : env.settings_save_one settings_key
      (table_bytes (put s.default_layers (slot_of env.zmk_endpoints_selected)
        (param1 % 256))) < 0
  · simp only [hr, if_true]
  · simp only [hr, if_false, lt_self_iff_false]
    rw [apply_eq cfg env env.zmk_endpoints_selected _ (param1 % 256) husb he hput]
    by_cases hk : env.zmk_keymap_layer_to (param1 % 256) < 0
    · simp [hk]
    · simp [hk]

/-- The result of `on_keymap_binding_pressed` when the range check rejects the layer. -/
theorem pressed_rejected (cfg : Config) (env : Env) (param1 : Nat) (s : State)
    (hL : cfg.ZMK_KEYMAP_LAYERS_LEN ≤ param1 % 256) :
    on_keymap_binding_pressed cfg env param1 s = some (-EINVAL, s) := by
  simp only [on_keymap_binding_pressed]
  rw [save_rejected cfg env (param1 % 256) env.zmk_endpoints_selected s hL]
  simp [EINVAL]

/-! ## C1: set followed by get -/

/-- C1. For a table of the configured size, a valid endpoint (with the single USB
entry the code asserts) and a layer `L` below `ZMK_KEYMAP_LAYERS_LEN`,
`save_default_layer_setting L endpoint` returns, whatever the store answers; after
it the entry of that endpoint is `L`, every other entry of the table is what it was,
and the lookup of `apply_default_layer_config` for that endpoint yields `L` (it asks
the keymap for layer `L`). -/
theorem save_then_lookup (cfg : Config) (env : Env) (L : Nat)
    (e : zmk_endpoint_instance) (s : State)
    (hs : sized cfg s.default_layers) (husb : cfg.ZMK_ENDPOINT_USB_COUNT = 1)
    (he : valid_endpoint cfg e) (hL : L < cfg.ZMK_KEYMAP_LAYERS_LEN) :
    ∃ r s1, save_default_layer_setting cfg env L e s = some (r, s1)
      ∧ entry s1.default_layers (slot_of e) = some L
      ∧ (∀ sl, sl ≠ slot_of e → entry s1.default_layers sl = entry s.default_layers sl)
      ∧ ∀ env2 : Env, ∃ r2 s2, apply_default_layer_config cfg env2 e s1 = some (r2, s2)
          ∧ s2.trace = s1.trace ++ [Call.zmk_keymap_layer_to L (env2.zmk_keymap_layer_to L)] := by
  obtain ⟨l, hl⟩ := entry_in_bounds cfg s.default_layers e hs husb he
  have hput := entry_put_same s.default_layers (slot_of e) L l hl
  refine ⟨_, _, save_eq cfg env L e s hs husb he hL, hput, ?_, ?_⟩
  · intro sl hsl
    exact entry_put_other s.default_layers (slot_of e) sl L hsl
  · intro env2
    exact ⟨_, _, apply_eq cfg env2 e _ L husb he hput, rfl⟩

/-- C1 at a concrete input: BLE profile 2, layer 5, a store that fails with -5. -/
theorem save_then_lookup_witness :
    ∃ r s1, save_default_layer_setting sample_cfg (sample_env (ble_endpoint 2) (-5) 0) 5
        (ble_endpoint 2) sample_state = some (r, s1)
      ∧ entry s1.default_layers (slot_of (ble_endpoint 2)) = some 5
      ∧ (∀ sl, sl ≠ slot_of (ble_endpoint 2) →
          entry s1.default_layers sl = entry sample_state.default_layers sl)
      ∧ ∀ env2 : Env, ∃ r2 s2,
          apply_default_layer_config sample_cfg env2 (ble_endpoint 2) s1 = some (r2, s2)
          ∧ s2.trace = s1.trace ++ [Call.zmk_keymap_layer_to 5 (env2.zmk_keymap_layer_to 5)] :=
  save_then_lookup sample_cfg (sample_env (ble_endpoint 2) (-5) 0) 5 (ble_endpoint 2)
    sample_state (by decide) (by decide) (by decide) (by decide)

/-! ## C2: a layer outside the keymap is refused -/

/-- C2. For every table, every endpoint and every layer `L` with
`L >= ZMK_KEYMAP_LAYERS_LEN`, `save_default_layer_setting L endpoint` returns
`-EINVAL` and leaves the state as it was: the table is identical and nothing is
added to the log of external calls, so no store write is made. -/
theorem save_invalid_layer (cfg : Config) (env : Env) (L : Nat)
    (e : zmk_endpoint_instance) (s : State) (hL : cfg.ZMK_KEYMAP_LAYERS_LEN ≤ L) :
    save_default_layer_setting cfg env L e s = some (-EINVAL, s) :=
  save_rejected cfg env L e s hL

/-- C2 at a concrete input: layer 8 of an eight-layer keymap. -/
theorem save_invalid_layer_witness :
    save_default_layer_setting sample_cfg (sample_env usb_endpoint 0 0) 8 usb_endpoint
      sample_state = some (-EINVAL, sample_state) :=
  save_invalid_layer sample_cfg (sample_env usb_endpoint 0 0) 8 usb_endpoint sample_state
    (by decide)

/-! ## C3: what a failed press leaves behind -/

/-- C3, refuted as stated: with the USB endpoint selected, layer 3 requested and a
store write that fails with -5, `on_keymap_binding_pressed` returns the negative
code -5 although the table has changed from `usb = [0]` to `usb = [3]`. -/
theorem pressed_failure_changes_table :
    on_keymap_binding_pressed sample_cfg (sample_env usb_endpoint (-5) 0) 3
        (init_state sample_cfg)
      = some (-5, { default_layers := { usb := [3], ble := [0, 0, 0] }
                    trace := [Call.settings_save_one "default_layer/settings"
                                [3, 0, 0, 0] (-5)] })
    ∧ (-5 : Int) < 0
    ∧ ({ usb := [3], ble := [0, 0, 0] } : default_layer_settings_t)
        ≠ (init_state sample_cfg).default_layers := by
  decide

/-- C3 as amended. If `on_keymap_binding_pressed` returns a negative code then
(a) when the range check refused the layer (its low eight bits are at least
`ZMK_KEYMAP_LAYERS_LEN`) the whole state is what it was; (b) otherwise the entry of
the selected endpoint holds the requested layer, without rollback; (c) every entry
other than the selected endpoint's is unchanged; (d) every layer activation
requested during the call was refused by the keymap, so no new layer has been
activated. -/
theorem pressed_failure_effect (cfg : Config) (env : Env) (param1 : Nat) (s : State)
    (r : Int) (s1 : State)
    (h : on_keymap_binding_pressed cfg env param1 s = some (r, s1)) (hr : r < 0) :
    (cfg.ZMK_KEYMAP_LAYERS_LEN ≤ param1 % 256 → s1 = s)
    ∧ (param1 % 256 < cfg.ZMK_KEYMAP_LAYERS_LEN →
        entry s1.default_layers (slot_of env.zmk_endpoints_selected) = some (param1 % 256))
    ∧ (∀ sl, sl ≠ slot_of env.zmk_endpoints_selected →
        entry s1.default_layers sl = entry s.default_layers sl)
    ∧ (∀ l ret, Call.zmk_keymap_layer_to l ret ∈ s1.trace.drop s.trace.length → ret < 0) := by
  by_cases hL : cfg.ZMK_KEYMAP_LAYERS_LEN ≤ param1 % 256
  · rw [pressed_rejected cfg env param1 s hL] at h
    simp only [Option.some.injEq, Prod.mk.injEq] at h
    obtain ⟨-, hs1⟩ := h
    subst hs1
    refine ⟨fun _ => rfl, fun hc => absurd hL (not_le.mpr hc), fun _ _ => rfl, ?_⟩
    intro l ret hmem
    simp at hmem
  · have hL2 : param1 % 256 < cfg.ZMK_KEYMAP_LAYERS_LEN := not_le.mp hL
    simp only [on_keymap_binding_pressed] at h
    cases hsave : save_default_layer_setting cfg env (param1 % 256)
        env.zmk_endpoints_selected s with
    | none => simp [hsave] at h
    | some p =>
      obtain ⟨ra, sa⟩ := p
      obtain ⟨l, hl, hra, hsa⟩ := save_some cfg env (param1 % 256)
        env.zmk_endpoints_selected s ra sa hL2 hsave
      have hput := entry_put_same s.default_layers (slot_of env.zmk_endpoints_selected)
        (param1 % 256) l hl
      simp only [hsave] at h
      have key : s1.default_layers
            = put s.default_layers (slot_of env.zmk_endpoints_selected) (param1 % 256)
          ∧ (∀ l2 ret, Call.zmk_keymap_layer_to l2 ret ∈ s1.trace.drop s.trace.length →
              ret < 0) := by
        by_cases hneg : ra < 0
        · simp only [hneg, if_true, Option.some.injEq, Prod.mk.injEq] at h
          obtain ⟨-, hs1⟩ := h
          subst hs1
          subst hsa
          refine ⟨rfl, ?_⟩
          intro l2 ret hmem
          simp at hmem
        · simp only [hneg, if_false] at h
          cases happ : apply_default_layer_config cfg env env.zmk_endpoints_selected sa with
          | none => simp [happ] at h
          | some q =>
            obtain ⟨rb, sb⟩ := q
            obtain ⟨l3, -, hrb, hsb⟩ := apply_some cfg env env.zmk_endpoints_selected
              sa rb sb happ
            simp only [happ] at h
            by_cases hnegb : rb < 0
            · simp only [hnegb, if_true, Option.some.injEq, Prod.mk.injEq] at h
              obtain ⟨hrr, hs1⟩ := h
              subst hs1
              subst hsb
              subst hsa
              refine ⟨rfl, ?_⟩
              intro l2 ret hmem
              simp at hmem
              obtain ⟨-, hret⟩ := hmem
              rw [hret]
              by_cases hk : env.zmk_keymap_layer_to l3 < 0
              · exact hk
              · rw [if_neg hk] at hrb
                omega
            · simp only [hnegb, if_false, Option.some.injEq, Prod.mk.injEq] at h
              omega
      obtain ⟨htab, hcalls⟩ := key
      refine ⟨fun hc => absurd hc hL, fun _ => ?_, ?_, hcalls⟩
      · rw [htab]; exact hput
      · intro sl hsl
        rw [htab]
        exact entry_put_other s.default_layers _ sl _ hsl

/-- C3 as amended, at the input of the counterexample: the press fails with -5, the
USB entry now holds 3 and the three BLE entries are unchanged. -/
theorem pressed_failure_effect_witness :
    (sample_cfg.ZMK_KEYMAP_LAYERS_LEN ≤ 3 % 256 →
        ({ default_layers := { usb := [3], ble := [0, 0, 0] }
           trace := [Call.settings_save_one "default_layer/settings" [3, 0, 0, 0] (-5)] }
          : State) = init_state sample_cfg)
    ∧ (3 % 256 < sample_cfg.ZMK_KEYMAP_LAYERS_LEN →
        entry ({ usb := [3], ble := [0, 0, 0] } : default_layer_settings_t)
          (slot_of usb_endpoint) = some (3 % 256))
    ∧ (∀ sl, sl ≠ slot_of usb_endpoint →
        entry ({ usb := [3], ble := [0, 0, 0] } : default_layer_settings_t) sl
          = entry (init_state sample_cfg).default_layers sl)
    ∧ (∀ l ret, Call.zmk_keymap_layer_to l ret ∈
          ([Call.settings_save_one "default_layer/settings" [3, 0, 0, 0] (-5)]
            : List Call).drop (init_state sample_cfg).trace.length → ret < 0) :=
  pressed_failure_effect sample_cfg (sample_env usb_endpoint (-5) 0) 3
    (init_state sample_cfg) (-5)
    { default_layers := { usb := [3], ble := [0, 0, 0] }
      trace := [Call.settings_save_one "default_layer/settings" [3, 0, 0, 0] (-5)] }
    (by decide) (by decide)

theorem steq_settings : settings_name_steq "settings" "settings" = (true, none) := by
  decide

theorem table_of_bytes_table_bytes (cfg : Config) (t : default_layer_settings_t)
    (ht : sized cfg t) : table_of_bytes cfg (table_bytes t) = t := by
  obtain ⟨u, b⟩ := t
  obtain ⟨hu, hb⟩ := ht
  simp only at hu hb
  simp [table_of_bytes, table_bytes, ← hu]

theorem table_bytes_length (cfg : Config) (t : default_layer_settings_t)
    (ht : sized cfg t) : (table_bytes t).length = sizeof_default_layers cfg := by
  obtain ⟨hu, hb⟩ := ht
  simp [table_bytes, sizeof_default_layers, hu, hb]

theorem write_bytes_full (written mem : List Nat) (n : Nat)
    (hw : written.length = n) (hm : mem.length = n) :
    write_bytes written n mem = written := by
  simp [write_bytes, ← hw, hm]

theorem table_bytes_table_of_bytes (cfg : Config) (b : List Nat) :
    table_bytes (table_of_bytes cfg b) = b := by
  simp [table_bytes, table_of_bytes]

theorem mem_write_bytes (written mem : List Nat) (n x : Nat)
    (h : x ∈ write_bytes written n mem) : x ∈ written ∨ x ∈ mem := by
  simp only [write_bytes, List.mem_append] at h
  rcases h with h | h
  · exact Or.inl (List.mem_of_mem_take h)
  · exact Or.inr (List.mem_of_mem_drop h)

theorem table_in_range_put (cfg : Config) (t : default_layer_settings_t) (sl : Slot)
    (v : Nat) (ht : table_in_range cfg t) (hv : v < cfg.ZMK_KEYMAP_LAYERS_LEN) :
    table_in_range cfg (put t sl v) := by
  intro x hx
  cases sl with
  | usb i =>
    simp only [put, table_bytes, List.mem_append] at hx
    rcases hx with hx | hx
    · rcases List.mem_or_eq_of_mem_set hx with h | h
      · exact ht x (by simp [table_bytes, h])
      · rw [h]; exact hv
    · exact ht x (by simp [table_bytes, hx])
  | ble i =>
    simp only [put, table_bytes, List.mem_append] at hx
    rcases hx with hx | hx
    · exact ht x (by simp [table_bytes, hx])
    · rcases List.mem_or_eq_of_mem_set hx with h | h
      · exact ht x (by simp [table_bytes, h])
      · rw [h]; exact hv

theorem table_in_range_zero (cfg : Config) (h : 1 ≤ cfg.ZMK_KEYMAP_LAYERS_LEN) :
    table_in_range cfg (zero_table cfg) := by
  intro x hx
  simp only [zero_table, table_bytes, List.mem_append, List.mem_replicate] at hx
  rcases hx with hx | hx <;> omega


theorem default_layer_set_table (cfg : Config) (name : String) (len : Nat)
    (read_cb : settings_read_cb) (s : State) :
    (default_layer_set cfg name len read_cb s).2.default_layers = s.default_layers
    ∨ (default_layer_set cfg name len read_cb s).2.default_layers
        = table_of_bytes cfg (write_bytes (read_cb (sizeof_default_layers cfg)).2
            (sizeof_default_layers cfg) (table_bytes s.default_layers)) := by
  simp only [default_layer_set]
  split_ifs <;> simp

theorem step_in_range (cfg : Config) (ev : Event) (s s1 : State)
    (hs : table_in_range cfg s.default_layers) (hev : load_in_range cfg ev)
    (h : step cfg ev s = some s1) : table_in_range cfg s1.default_layers := by
  cases ev with
  | settings_load name len read_cb =>
    simp only [step, Option.some.injEq] at h
    subst h
    rcases default_layer_set_table cfg name len read_cb s with ht | ht
    · rw [ht]; exact hs
    · rw [ht]
      intro x hx
      rw [table_bytes_table_of_bytes] at hx
      rcases mem_write_bytes _ _ _ _ hx with hx | hx
      · exact hev x hx
      · exact hs x hx
  | pressed env param1 =>
    obtain ⟨p, hp, hp2⟩ := Option.map_eq_some'.mp h
    obtain ⟨r, s2⟩ := p
    simp only at hp2
    subst hp2
    by_cases hL : cfg.ZMK_KEYMAP_LAYERS_LEN ≤ param1 % 256
    · rw [pressed_rejected cfg env param1 s hL] at hp
      simp only [Option.some.injEq, Prod.mk.injEq] at hp
      rw [← hp.2]; exact hs
    · have hL2 : param1 % 256 < cfg.ZMK_KEYMAP_LAYERS_LEN := not_le.mp hL
      simp only [on_keymap_binding_pressed] at hp
      cases hsave : save_default_layer_setting cfg env (param1 % 256)
          env.zmk_endpoints_selected s with
      | none => simp [hsave] at hp
      | some q =>
        obtain ⟨ra, sa⟩ := q
        obtain ⟨l, -, -, hsa⟩ := save_some cfg env (param1 % 256)
          env.zmk_endpoints_selected s ra sa hL2 hsave
        have hsa_range : table_in_range cfg sa.default_layers := by
          rw [hsa]
          exact table_in_range_put cfg s.default_layers _ _ hs hL2
        simp only [hsave] at hp
        by_cases hneg : ra < 0
        · simp only [hneg, if_true, Option.some.injEq, Prod.mk.injEq] at hp
          rw [← hp.2]; exact hsa_range
        · simp only [hneg, if_false] at hp
          cases happ : apply_default_layer_config cfg env env.zmk_endpoints_selected sa with
          | none => simp [happ] at hp
          | some q2 =>
            obtain ⟨rb, sb⟩ := q2
            obtain ⟨l3, -, -, hsb⟩ := apply_some cfg env env.zmk_endpoints_selected
              sa rb sb happ
            simp only [happ] at hp
            have hsb_range : table_in_range cfg sb.default_layers := by
              rw [hsb]; exact hsa_range
            split_ifs at hp <;>
              simp only [Option.some.injEq, Prod.mk.injEq] at hp <;>
              (rw [← hp.2]; exact hsb_range)
  | released =>
    simp only [step, on_keymap_binding_released, Option.some.injEq] at h
    rw [← h]; exact hs
  | endpoint_changed env evt =>
    obtain ⟨p, hp, hp2⟩ := Option.map_eq_some'.mp h
    obtain ⟨r, s2⟩ := p
    simp only at hp2
    subst hp2
    cases evt with
    | none =>
      simp only [endpoint_changed_cb, Option.some.injEq, Prod.mk.injEq] at hp
      rw [← hp.2]; exact hs
    | some e =>
      simp only [endpoint_changed_cb] at hp
      cases happ : apply_default_layer_config cfg env e s with
      | none => simp [happ] at hp
      | some q2 =>
        obtain ⟨rb, sb⟩ := q2
        obtain ⟨l3, -, -, hsb⟩ := apply_some cfg env e s rb sb happ
        simp only [happ, Option.some.injEq, Prod.mk.injEq] at hp
        rw [← hp.2, hsb]; exact hs

theorem run_in_range (cfg : Config) (evs : List Event) :
    ∀ (s s1 : State), table_in_range cfg s.default_layers →
      (∀ ev ∈ evs, load_in_range cfg ev) → run cfg evs s = some s1 →
      table_in_range cfg s1.default_layers := by
  induction evs with
  | nil =>
    intro s s1 hs _ h
    simp only [run, Option.some.injEq] at h
    rw [← h]; exact hs
  | cons ev evs ih =>
    intro s s1 hs hev h
    simp only [run] at h
    cases hstep : step cfg ev s with
    | none => simp [hstep] at h
    | some s2 =>
      simp only [hstep] at h
      exact ih s2 s1 (step_in_range cfg ev s s2 hs (hev ev (List.mem_cons_self _ _)) hstep)
        (fun e he => hev e (List.mem_cons_of_mem _ he)) h

/-- The result of `default_layer_set` for the key `settings`. -/
theorem default_layer_set_settings (cfg : Config) (len : Nat)
    (read_cb : settings_read_cb) (s : State) :
    default_layer_set cfg "settings" len read_cb s =
      (if len ≠ sizeof_default_layers cfg then (-EINVAL, s)
       else
        (if (read_cb (sizeof_default_layers cfg)).1 ≥ 0 then 0
           else (read_cb (sizeof_default_layers cfg)).1,
         { default_layers := table_of_bytes cfg
             (write_bytes (read_cb (sizeof_default_layers cfg)).2
               (sizeof_default_layers cfg) (table_bytes s.default_layers))
           trace := s.trace ++ [Call.read_cb (sizeof_default_layers cfg)
             (read_cb (sizeof_default_layers cfg)).1] })) := by
  simp only [default_layer_set, steq_settings, and_self, if_true]
  split_ifs <;> rfl

/-! ## C4: the layer parameter of a press is narrowed before the range check -/

/-- C4, the code at the failing input. The press carries `param1 = 256`, which is
not a layer of the eight-layer keymap, while BLE profile 2 is selected and holds
layer 7. The call is not refused: it returns 0, overwrites the entry of profile 2
with 0, writes the table to the store and asks the keymap for layer 0. -/
theorem pressed_param_256_accepted :
    sample_cfg.ZMK_KEYMAP_LAYERS_LEN ≤ 256
    ∧ on_keymap_binding_pressed sample_cfg (sample_env (ble_endpoint 2) 0 0) 256 sample_state
      = some (0, { default_layers := { usb := [3], ble := [1, 0, 0] }
                   trace := [Call.settings_save_one "default_layer/settings" [3, 1, 0, 0] 0,
                             Call.zmk_keymap_layer_to 0 0] }) := by
  decide

/-! ## C5: range of the table entries -/

/-- C5, refuted as stated: from the zero table of the sample configuration (eight
layers) a single settings load of four bytes under the key `settings` whose first
byte is 200 leaves `usb[0] = 200`, which is not a layer of the keymap. -/
theorem load_breaks_range :
    1 ≤ sample_cfg.ZMK_KEYMAP_LAYERS_LEN
    ∧ run sample_cfg [Event.settings_load "settings" 4 (fun _ => (4, [200, 0, 0, 0]))]
        (init_state sample_cfg)
      = some { default_layers := { usb := [200], ble := [0, 0, 0] }
               trace := [Call.read_cb 4 4] }
    ∧ ¬ table_in_range sample_cfg { usb := [200], ble := [0, 0, 0] } := by
  decide

/-- C5 as amended. With `ZMK_KEYMAP_LAYERS_LEN >= 1`, in every state reached from
the zero-initialised table by a sequence of settings loads (any key, any length)
whose read callback stores only bytes below `ZMK_KEYMAP_LAYERS_LEN`, pressed events,
released events and endpoint-changed events, every entry of `usb[]` and `ble[]` is
below `ZMK_KEYMAP_LAYERS_LEN`. -/
theorem reachable_table_in_range (cfg : Config) (evs : List Event) (s : State)
    (hlen : 1 ≤ cfg.ZMK_KEYMAP_LAYERS_LEN)
    (hloads : ∀ ev ∈ evs, load_in_range cfg ev)
    (hrun : run cfg evs (init_state cfg) = some s) :
    table_in_range cfg s.default_layers :=
  run_in_range cfg evs (init_state cfg) s (table_in_range_zero cfg hlen) hloads hrun

/-- C5 as amended, on a concrete run: a load of in-range bytes, a press of layer 5
on BLE profile 2, a press whose parameter 256 is narrowed to 0 on USB, a release and
an endpoint change. -/
theorem reachable_table_in_range_witness :
    run sample_cfg
        [Event.settings_load "settings" 4 (fun _ => (4, [7, 6, 5, 4])),
         Event.pressed (sample_env (ble_endpoint 2) 0 0) 5,
         Event.pressed (sample_env usb_endpoint (-5) 0) 256,
         Event.released,
         Event.endpoint_changed (sample_env usb_endpoint 0 (-22)) (some (ble_endpoint 1))]
        (init_state sample_cfg)
      = some { default_layers := { usb := [0], ble := [6, 5, 5] }
               trace := [Call.read_cb 4 4,
                         Call.settings_save_one "default_layer/settings" [7, 6, 5, 5] 0,
                         Call.zmk_keymap_layer_to 5 0,
                         Call.settings_save_one "default_layer/settings" [0, 6, 5, 5] (-5),
                         Call.zmk_keymap_layer_to 5 (-22)] }
    ∧ table_in_range sample_cfg { usb := [0], ble := [6, 5, 5] } :=
  ⟨by decide,
   reachable_table_in_range sample_cfg
    [Event.settings_load "settings" 4 (fun _ => (4, [7, 6, 5, 4])),
     Event.pressed (sample_env (ble_endpoint 2) 0 0) 5,
     Event.pressed (sample_env usb_endpoint (-5) 0) 256,
     Event.released,
     Event.endpoint_changed (sample_env usb_endpoint 0 (-22)) (some (ble_endpoint 1))]
    { default_layers := { usb := [0], ble := [6, 5, 5] }
      trace := [Call.read_cb 4 4,
                Call.settings_save_one "default_layer/settings" [7, 6, 5, 5] 0,
                Call.zmk_keymap_layer_to 5 0,
                Call.settings_save_one "default_layer/settings" [0, 6, 5, 5] (-5),
                Call.zmk_keymap_layer_to 5 (-22)] }
    (by decide)
    (by
      intro ev hev
      simp only [List.mem_cons, List.mem_singleton, List.not_mem_nil, or_false] at hev
      rcases hev with h | h | h | h | h <;> subst h <;> simp [load_in_range, sample_cfg])
    (by decide)⟩

/-! ## C6: the saved blob loads back -/

/-- C6. Let `t` be a table of the configured size. (a) When
`save_default_layer_setting` leaves the table at `t` after an accepted layer, what it
handed to the store under `default_layer/settings` is `table_bytes t`, the usb
entries followed by the ble entries; (b) that blob has `sizeof(default_layers)`
bytes; (c) delivered to `default_layer_set` under the key `settings` with that length
and a read callback that supplies those bytes and reports success, it makes
`default_layer_set` return 0 and leaves the table equal to `t`, whatever table (of the
configured size) was held before. -/
theorem saved_blob_round_trip (cfg : Config) (t : default_layer_settings_t)
    (s0 : State) (rc : Int)
    (ht : sized cfg t) (hs0 : sized cfg s0.default_layers) (hrc : 0 ≤ rc) :
    (∀ (env : Env) (L : Nat) (e : zmk_endpoint_instance) (s : State) (r : Int) (s1 : State),
        L < cfg.ZMK_KEYMAP_LAYERS_LEN →
        save_default_layer_setting cfg env L e s = some (r, s1) →
        s1.default_layers = t →
        s1.trace = s.trace ++ [Call.settings_save_one "default_layer/settings"
          (table_bytes t) (env.settings_save_one "default_layer/settings" (table_bytes t))])
    ∧ (table_bytes t).length = sizeof_default_layers cfg
    ∧ default_layer_set cfg "settings" (table_bytes t).length
          (fun _ => (rc, table_bytes t)) s0
        = (0, { default_layers := t
                trace := s0.trace ++ [Call.read_cb (sizeof_default_layers cfg) rc] }) := by
  have hlen := table_bytes_length cfg t ht
  refine ⟨?_, hlen, ?_⟩
  · intro env L e s r s1 hL hsave htab
    obtain ⟨l, -, -, hs1⟩ := save_some cfg env L e s r s1 hL hsave
    rw [hs1] at htab
    simp only at htab
    rw [hs1]
    simp only [htab, settings_key]
  · rw [default_layer_set_settings, hlen]
    simp only [ne_eq, not_true_eq_false, if_false, ge_iff_le, hrc, if_true]
    rw [write_bytes_full (table_bytes t) (table_bytes s0.default_layers)
      (sizeof_default_layers cfg) hlen (table_bytes_length cfg s0.default_layers hs0),
      table_of_bytes_table_bytes cfg t ht]

/-- C6 at a concrete input: `sample_table` loaded over the zero table. -/
theorem saved_blob_round_trip_witness :
    (∀ (env : Env) (L : Nat) (e : zmk_endpoint_instance) (s : State) (r : Int) (s1 : State),
        L < sample_cfg.ZMK_KEYMAP_LAYERS_LEN →
        save_default_layer_setting sample_cfg env L e s = some (r, s1) →
        s1.default_layers = sample_table →
        s1.trace = s.trace ++ [Call.settings_save_one "default_layer/settings"
          (table_bytes sample_table)
          (env.settings_save_one "default_layer/settings" (table_bytes sample_table))])
    ∧ (table_bytes sample_table).length = sizeof_default_layers sample_cfg
    ∧ default_layer_set sample_cfg "settings" (table_bytes sample_table).length
          (fun _ => (4, table_bytes sample_table)) (init_state sample_cfg)
        = (0, { default_layers := sample_table
                trace := (init_state sample_cfg).trace
                  ++ [Call.read_cb (sizeof_default_layers sample_cfg) 4] }) :=
  saved_blob_round_trip sample_cfg sample_table (init_state sample_cfg) 4
    (by decide) (by decide) (by decide)

/-! ## C7: a blob of another length is not read -/

/-- C7. For every table and every length `len` other than `sizeof(default_layers)`,
`default_layer_set "settings" len read_cb` returns `-EINVAL` and leaves the state as
it was: the table keeps its prior value and the log has no call of the read
callback. -/
theorem load_wrong_length (cfg : Config) (len : Nat) (read_cb : settings_read_cb)
    (s : State) (hlen : len ≠ sizeof_default_layers cfg) :
    default_layer_set cfg "settings" len read_cb s = (-EINVAL, s) := by
  rw [default_layer_set_settings, if_pos hlen]

/-- C7 on a fresh boot: a blob of three bytes where four are expected leaves the
zero table. -/
theorem load_wrong_length_witness :
    default_layer_set sample_cfg "settings" 3 (fun _ => (3, [5, 5, 5]))
        (init_state sample_cfg)
      = (-EINVAL, init_state sample_cfg) :=
  load_wrong_length sample_cfg 3 (fun _ => (3, [5, 5, 5])) (init_state sample_cfg)
    (by decide)

/-! ## C8: a successful press -/

/-- C8. Let the table have the configured size, let the selected endpoint `e` be
valid and let `L` be an eight-bit layer below `ZMK_KEYMAP_LAYERS_LEN`. When the store
write of the updated table and the activation of layer `L` both answer a
non-negative code, `on_keymap_binding_pressed` returns 0; the entry of `e` is `L` and
every other entry is unchanged; the log grows by exactly two calls, first one store
write under `default_layer/settings` whose payload is the whole table after the
update, then one request to the keymap to activate layer `L`. -/
theorem pressed_success (cfg : Config) (env : Env) (L : Nat) (s : State)
    (hs : sized cfg s.default_layers) (husb : cfg.ZMK_ENDPOINT_USB_COUNT = 1)
    (he : valid_endpoint cfg env.zmk_endpoints_selected)
    (hL : L < cfg.ZMK_KEYMAP_LAYERS_LEN) (hbyte : L < 256)
    (hstore : 0 ≤ env.settings_save_one "default_layer/settings"
      (table_bytes (put s.default_layers (slot_of env.zmk_endpoints_selected) L)))
    (hkeymap : 0 ≤ env.zmk_keymap_layer_to L) :
    ∃ s1, on_keymap_binding_pressed cfg env L s = some (0, s1)
      ∧ entry s1.default_layers (slot_of env.zmk_endpoints_selected) = some L
      ∧ (∀ sl, sl ≠ slot_of env.zmk_endpoints_selected →
          entry s1.default_layers sl = entry s.default_layers sl)
      ∧ s1.trace = s.trace ++
          [Call.settings_save_one "default_layer/settings" (table_bytes s1.default_layers)
             (env.settings_save_one "default_layer/settings"
               (table_bytes s1.default_layers)),
           Call.zmk_keymap_layer_to L (env.zmk_keymap_layer_to L)] := by
  have hmod : L % 256 = L := Nat.mod_eq_of_lt hbyte
  obtain ⟨l, hl⟩ := entry_in_bounds cfg s.default_layers env.zmk_endpoints_selected hs husb he
  have hpress := pressed_eq cfg env L s hs husb he (by rw [hmod]; exact hL)
  rw [hmod] at hpress
  simp only [settings_key] at hpress
  rw [if_neg (not_lt.mpr hstore), if_neg (not_lt.mpr hkeymap)] at hpress
  refine ⟨_, hpress, entry_put_same s.default_layers _ L l hl, ?_, rfl⟩
  intro sl hsl
  exact entry_put_other s.default_layers _ sl L hsl

/-- C8 on Scenario B: BLE profile 2 selected, layer 5 requested. -/
theorem pressed_success_witness :
    ∃ s1, on_keymap_binding_pressed sample_cfg (sample_env (ble_endpoint 2) 0 0) 5
        sample_state = some (0, s1)
      ∧ entry s1.default_layers (slot_of (ble_endpoint 2)) = some 5
      ∧ (∀ sl, sl ≠ slot_of (ble_endpoint 2) →
          entry s1.default_layers sl = entry sample_state.default_layers sl)
      ∧ s1.trace = sample_state.trace ++
          [Call.settings_save_one "default_layer/settings" (table_bytes s1.default_layers)
             ((sample_env (ble_endpoint 2) 0 0).settings_save_one "default_layer/settings"
               (table_bytes s1.default_layers)),
           Call.zmk_keymap_layer_to 5
             ((sample_env (ble_endpoint 2) 0 0).zmk_keymap_layer_to 5)] :=
  pressed_success sample_cfg (sample_env (ble_endpoint 2) 0 0) 5 sample_state
    (by decide) (by decide) (by decide) (by decide) (by decide) (by decide) (by decide)

/-! ## C9: a failed step ends the press -/

/-- C9. (a) If the range check refuses the requested layer (the low eight bits of
the parameter are at least `ZMK_KEYMAP_LAYERS_LEN`), `on_keymap_binding_pressed`
returns `-EINVAL` and the state, log included, is what it was: no store write and no
layer activation request. (b) If the layer is accepted and the store write of the
updated table returns a negative code `r`, for a table of the configured size and a
valid selected endpoint, `on_keymap_binding_pressed` returns `r` and the log grows by
that single store write: it is not retried and the keymap is not asked for
anything. -/
theorem pressed_short_circuit (cfg : Config) (env : Env) (param1 : Nat) (s : State)
    (r : Int) :
    (cfg.ZMK_KEYMAP_LAYERS_LEN ≤ param1 % 256 →
      on_keymap_binding_pressed cfg env param1 s = some (-EINVAL, s))
    ∧ (sized cfg s.default_layers → cfg.ZMK_ENDPOINT_USB_COUNT = 1 →
       valid_endpoint cfg env.zmk_endpoints_selected →
       param1 % 256 < cfg.ZMK_KEYMAP_LAYERS_LEN →
       env.settings_save_one "default_layer/settings"
         (table_bytes (put s.default_layers (slot_of env.zmk_endpoints_selected)
           (param1 % 256))) = r →
       r < 0 →
       ∃ s1, on_keymap_binding_pressed cfg env param1 s = some (r, s1)
         ∧ s1.trace = s.trace ++
             [Call.settings_save_one "default_layer/settings"
               (table_bytes s1.default_layers) r]) := by
  refine ⟨pressed_rejected cfg env param1 s, ?_⟩
  intro hs husb he hL hr hneg
  have hpress := pressed_eq cfg env param1 s hs husb he hL
  simp only [settings_key] at hpress
  rw [hr, if_pos hneg] at hpress
  exact ⟨_, hpress, rfl⟩

/-- C9 at concrete inputs: layer 9 of an eight-layer keymap is refused, and a store
failure -5 on layer 5 ends the press after the one store write. -/
theorem pressed_short_circuit_witness :
    on_keymap_binding_pressed sample_cfg (sample_env usb_endpoint 0 0) 9 sample_state
      = some (-EINVAL, sample_state)
    ∧ ∃ s1, on_keymap_binding_pressed sample_cfg (sample_env (ble_endpoint 1) (-5) 0) 5
        sample_state = some (-5, s1)
      ∧ s1.trace = sample_state.trace ++
          [Call.settings_save_one "default_layer/settings"
            (table_bytes s1.default_layers) (-5)] :=
  ⟨(pressed_short_circuit sample_cfg (sample_env usb_endpoint 0 0) 9 sample_state 0).1
      (by decide),
   (pressed_short_circuit sample_cfg (sample_env (ble_endpoint 1) (-5) 0) 5 sample_state
      (-5)).2 (by decide) (by decide) (by decide) (by decide) (by decide) (by decide)⟩

/-! ## C10: no rollback when the store write fails -/

/-- C10. For a table of the configured size, a valid endpoint `e` and a layer `L`
below `ZMK_KEYMAP_LAYERS_LEN`, if the store write of the updated table returns a
negative code `r`, `save_default_layer_setting` returns `r`, and the table it leaves
holds `L` at the entry of `e` with every other entry unchanged: the update is kept
although the store did not take it. -/
theorem save_failure_keeps_update (cfg : Config) (env : Env) (L : Nat)
    (e : zmk_endpoint_instance) (s : State) (r : Int)
    (hs : sized cfg s.default_layers) (husb : cfg.ZMK_ENDPOINT_USB_COUNT = 1)
    (he : valid_endpoint cfg e) (hL : L < cfg.ZMK_KEYMAP_LAYERS_LEN)
    (hr : env.settings_save_one "default_layer/settings"
      (table_bytes (put s.default_layers (slot_of e) L)) = r)
    (hneg : r < 0) :
    ∃ s1, save_default_layer_setting cfg env L e s = some (r, s1)
      ∧ entry s1.default_layers (slot_of e) = some L
      ∧ (∀ sl, sl ≠ slot_of e → entry s1.default_layers sl = entry s.default_layers sl)
      ∧ s1.trace = s.trace ++
          [Call.settings_save_one "default_layer/settings"
            (table_bytes s1.default_layers) r] := by
  obtain ⟨l, hl⟩ := entry_in_bounds cfg s.default_layers e hs husb he
  have hsave := save_eq cfg env L e s hs husb he hL
  simp only [settings_key] at hsave
  rw [hr, if_pos hneg] at hsave
  refine ⟨_, hsave, entry_put_same s.default_layers _ L l hl, ?_, rfl⟩
  intro sl hsl
  exact entry_put_other s.default_layers _ sl L hsl

/-- C10 at a concrete input: USB, layer 6, store failure -5. -/
theorem save_failure_keeps_update_witness :
    ∃ s1, save_default_layer_setting sample_cfg (sample_env usb_endpoint (-5) 0) 6
        usb_endpoint sample_state = some (-5, s1)
      ∧ entry s1.default_layers (slot_of usb_endpoint) = some 6
      ∧ (∀ sl, sl ≠ slot_of usb_endpoint →
          entry s1.default_layers sl = entry sample_state.default_layers sl)
      ∧ s1.trace = sample_state.trace ++
          [Call.settings_save_one "default_layer/settings"
            (table_bytes s1.default_layers) (-5)] :=
  save_failure_keeps_update sample_cfg (sample_env usb_endpoint (-5) 0) 6 usb_endpoint
    sample_state (-5) (by decide) (by decide) (by decide) (by decide) (by decide) (by decide)

/-! ## Lemmas for the listener, the keymap and boot -/

theorem store_writes_append (a b : List Call) :
    store_writes (a ++ b) = store_writes a ++ store_writes b := by
  induction a with
  | nil => rfl
  | cons c rest ih =>
    cases c <;> simp [store_writes, ih]

/-- The result of `endpoint_changed_cb` when it returns. -/
theorem endpoint_changed_some (cfg : Config) (env : Env)
    (evt : Option zmk_endpoint_instance) (s : State) (r : Int) (s1 : State)
    (h : endpoint_changed_cb cfg env evt s = some (r, s1)) :
    r = ZMK_EV_EVENT_BUBBLE
    ∧ (s1 = s ∨ ∃ l, s1 = { s with trace := s.trace ++
          [Call.zmk_keymap_layer_to l (env.zmk_keymap_layer_to l)] }) := by
  cases evt with
  | none =>
    simp only [endpoint_changed_cb, Option.some.injEq, Prod.mk.injEq] at h
    exact ⟨h.1.symm, Or.inl h.2.symm⟩
  | some e =>
    simp only [endpoint_changed_cb] at h
    cases happ : apply_default_layer_config cfg env e s with
    | none => simp [happ] at h
    | some q =>
      obtain ⟨rb, sb⟩ := q
      obtain ⟨l, -, -, hsb⟩ := apply_some cfg env e s rb sb happ
      simp only [happ, Option.some.injEq, Prod.mk.injEq] at h
      exact ⟨h.1.symm, Or.inr ⟨l, by rw [← h.2, hsb]⟩⟩

/-- The result of `endpoint_changed_cb` for an event whose endpoint holds `l`. -/
theorem endpoint_changed_eq (cfg : Config) (env : Env) (e : zmk_endpoint_instance)
    (s : State) (l : Nat) (husb : cfg.ZMK_ENDPOINT_USB_COUNT = 1)
    (he : valid_endpoint cfg e) (hl : entry s.default_layers (slot_of e) = some l) :
    endpoint_changed_cb cfg env (some e) s =
      some (ZMK_EV_EVENT_BUBBLE,
            { s with trace := s.trace ++
                [Call.zmk_keymap_layer_to l (env.zmk_keymap_layer_to l)] }) := by
  simp only [endpoint_changed_cb]
  rw [apply_eq cfg env e s l husb he hl]

/-! ## C11: an endpoint change applies the remembered layer -/

/-- C11. For a table of the configured size and an endpoint-changed event that
carries a valid endpoint `e`, `endpoint_changed_cb` returns and the log grows by
exactly one call: the request to the keymap to activate the layer the table holds
for `e` (`usb[0]` or `ble[profile_index]`). In particular, when the state is the one
a successful `save_default_layer_setting L e` left, the layer requested is `L`. -/
theorem endpoint_changed_applies (cfg : Config) (env : Env) (e : zmk_endpoint_instance)
    (s : State) (hs : sized cfg s.default_layers)
    (husb : cfg.ZMK_ENDPOINT_USB_COUNT = 1) (he : valid_endpoint cfg e) :
    (∃ l, entry s.default_layers (slot_of e) = some l
      ∧ endpoint_changed_cb cfg env (some e) s =
          some (ZMK_EV_EVENT_BUBBLE,
                { s with trace := s.trace ++
                    [Call.zmk_keymap_layer_to l (env.zmk_keymap_layer_to l)] }))
    ∧ (∀ (env0 : Env) (L : Nat) (s0 : State),
        save_default_layer_setting cfg env0 L e s0 = some (0, s) →
        endpoint_changed_cb cfg env (some e) s =
          some (ZMK_EV_EVENT_BUBBLE,
                { s with trace := s.trace ++
                    [Call.zmk_keymap_layer_to L (env.zmk_keymap_layer_to L)] })) := by
  constructor
  · obtain ⟨l, hl⟩ := entry_in_bounds cfg s.default_layers e hs husb he
    exact ⟨l, hl, endpoint_changed_eq cfg env e s l husb he hl⟩
  · intro env0 L s0 hsave
    have hL : L < cfg.ZMK_KEYMAP_LAYERS_LEN := by
      by_contra hc
      rw [save_rejected cfg env0 L e s0 (not_lt.mp hc)] at hsave
      simp [EINVAL] at hsave
    obtain ⟨l0, hl0, -, hs1⟩ := save_some cfg env0 L e s0 0 s hL hsave
    have hentry : entry s.default_layers (slot_of e) = some L := by
      rw [hs1]
      exact entry_put_same s0.default_layers (slot_of e) L l0 hl0
    exact endpoint_changed_eq cfg env e s L husb he hentry

/-- C11 on Scenario C: the table holds layer 3 for USB; a change to USB asks for
layer 3, and after BLE profile 2 was set to layer 5 a change to it asks for 5. -/
theorem endpoint_changed_applies_witness :
    (∃ l, entry sample_state.default_layers (slot_of usb_endpoint) = some l
      ∧ endpoint_changed_cb sample_cfg (sample_env (ble_endpoint 2) 0 0)
          (some usb_endpoint) sample_state =
          some (ZMK_EV_EVENT_BUBBLE,
                { sample_state with trace := sample_state.trace ++
                    [Call.zmk_keymap_layer_to l
                      ((sample_env (ble_endpoint 2) 0 0).zmk_keymap_layer_to l)] }))
    ∧ endpoint_changed_cb sample_cfg (sample_env usb_endpoint 0 0) (some (ble_endpoint 2))
        { default_layers := { usb := [3], ble := [1, 0, 5] }
          trace := [Call.settings_save_one "default_layer/settings" [3, 1, 0, 5] 0] }
      = some (ZMK_EV_EVENT_BUBBLE,
          { default_layers := { usb := [3], ble := [1, 0, 5] }
            trace := [Call.settings_save_one "default_layer/settings" [3, 1, 0, 5] 0]
              ++ [Call.zmk_keymap_layer_to 5
                    ((sample_env usb_endpoint 0 0).zmk_keymap_layer_to 5)] }) :=
  ⟨(endpoint_changed_applies sample_cfg (sample_env (ble_endpoint 2) 0 0) usb_endpoint
      sample_state (by decide) (by decide) (by decide)).1,
   (endpoint_changed_applies sample_cfg (sample_env usb_endpoint 0 0) (ble_endpoint 2)
      { default_layers := { usb := [3], ble := [1, 0, 5] }
        trace := [Call.settings_save_one "default_layer/settings" [3, 1, 0, 5] 0] }
      (by decide) (by decide) (by decide)).2
      (sample_env (ble_endpoint 2) 0 0) 5 sample_state (by decide)⟩

/-! ## C12: an endpoint change reads only -/

/-- C12. (a) Whatever the event (also one without endpoint-changed data) and
whatever the keymap answers, when `endpoint_changed_cb` returns it returns
`ZMK_EV_EVENT_BUBBLE`, the table is what it was and the log has no new store write.
(b) It does return for an event without data and, on a table of the configured size,
for an event with a valid endpoint. -/
theorem endpoint_changed_read_only (cfg : Config) (env : Env)
    (evt : Option zmk_endpoint_instance) (s : State) :
    (∀ r s1, endpoint_changed_cb cfg env evt s = some (r, s1) →
        r = ZMK_EV_EVENT_BUBBLE
        ∧ s1.default_layers = s.default_layers
        ∧ store_writes s1.trace = store_writes s.trace)
    ∧ ((∀ e, evt = some e → sized cfg s.default_layers
            ∧ cfg.ZMK_ENDPOINT_USB_COUNT = 1 ∧ valid_endpoint cfg e) →
        ∃ s1, endpoint_changed_cb cfg env evt s = some (ZMK_EV_EVENT_BUBBLE, s1)) := by
  constructor
  · intro r s1 h
    obtain ⟨hr, hcase⟩ := endpoint_changed_some cfg env evt s r s1 h
    refine ⟨hr, ?_⟩
    rcases hcase with h1 | ⟨l, h1⟩
    · rw [h1]; exact ⟨rfl, rfl⟩
    · rw [h1]
      refine ⟨rfl, ?_⟩
      simp [store_writes_append, store_writes]
  · intro hv
    cases evt with
    | none => exact ⟨s, rfl⟩
    | some e =>
      obtain ⟨hs, husb, he⟩ := hv e rfl
      obtain ⟨l, hl⟩ := entry_in_bounds cfg s.default_layers e hs husb he
      exact ⟨_, endpoint_changed_eq cfg env e s l husb he hl⟩

/-- C12 at concrete inputs: the keymap refuses (-22) and the callback still returns
`ZMK_EV_EVENT_BUBBLE` with the table and the store writes untouched. -/
theorem endpoint_changed_read_only_witness :
    (∀ r s1, endpoint_changed_cb sample_cfg (sample_env usb_endpoint 0 (-22))
          (some (ble_endpoint 0)) sample_state = some (r, s1) →
        r = ZMK_EV_EVENT_BUBBLE
        ∧ s1.default_layers = sample_state.default_layers
        ∧ store_writes s1.trace = store_writes sample_state.trace)
    ∧ ∃ s1, endpoint_changed_cb sample_cfg (sample_env usb_endpoint 0 (-22))
          (some (ble_endpoint 0)) sample_state = some (ZMK_EV_EVENT_BUBBLE, s1) :=
  ⟨(endpoint_changed_read_only sample_cfg (sample_env usb_endpoint 0 (-22))
      (some (ble_endpoint 0)) sample_state).1,
   (endpoint_changed_read_only sample_cfg (sample_env usb_endpoint 0 (-22))
      (some (ble_endpoint 0)) sample_state).2
      (fun e h => by
        cases h
        exact ⟨by decide, by decide, by decide⟩)⟩

/-- A stored item that is not a settings blob of the expected length leaves the
state alone. -/
theorem default_layer_set_skip (cfg : Config) (name : String) (len : Nat)
    (read_cb : settings_read_cb) (s : State)
    (h : settings_name_steq name "settings" = (true, none) →
      len ≠ sizeof_default_layers cfg) :
    (default_layer_set cfg name len read_cb s).2 = s := by
  simp only [default_layer_set]
  by_cases hm : (settings_name_steq name "settings").1 = true
      ∧ (settings_name_steq name "settings").2 = none
  · have hlen : len ≠ sizeof_default_layers cfg := h (Prod.ext hm.1 hm.2)
    simp [hm, hlen]
  · simp [hm]

theorem settings_load_subtree_skip (cfg : Config) (items : List StoredItem) :
    ∀ s : State,
      (∀ it ∈ items, settings_name_steq it.name "settings" = (true, none) →
        it.len ≠ sizeof_default_layers cfg) →
      settings_load_subtree cfg items s = s := by
  induction items with
  | nil => intro s _; rfl
  | cons it rest ih =>
    intro s h
    simp only [settings_load_subtree, List.foldl_cons]
    rw [default_layer_set_skip cfg it.name it.len it.read_cb s
      (h it (List.mem_cons_self _ _))]
    exact ih s (fun it2 h2 => h it2 (List.mem_cons_of_mem _ h2))

theorem sized_zero_table (cfg : Config) : sized cfg (zero_table cfg) := by
  simp [sized, zero_table]

theorem entry_zero_table (cfg : Config) (sl : Slot) (l : Nat)
    (h : entry (zero_table cfg) sl = some l) : l = 0 := by
  cases sl with
  | usb i =>
    simp only [entry, zero_table] at h
    have hm := List.getElem?_mem h
    exact (List.mem_replicate.mp hm).2
  | ble i =>
    simp only [entry, zero_table] at h
    have hm := List.getElem?_mem h
    exact (List.mem_replicate.mp hm).2

theorem sized_table_of_bytes (cfg : Config) (b : List Nat)
    (h : b.length = sizeof_default_layers cfg) : sized cfg (table_of_bytes cfg b) := by
  simp only [sizeof_default_layers] at h
  simp only [sized, table_of_bytes, List.length_take, List.length_drop]
  omega

theorem write_bytes_length (written mem : List Nat) (n : Nat) (h : mem.length = n) :
    (write_bytes written n mem).length = n := by
  simp only [write_bytes, List.length_append, List.length_take, List.length_drop]
  omega

theorem sized_default_layer_set (cfg : Config) (name : String) (len : Nat)
    (read_cb : settings_read_cb) (s : State) (hs : sized cfg s.default_layers) :
    sized cfg (default_layer_set cfg name len read_cb s).2.default_layers := by
  rcases default_layer_set_table cfg name len read_cb s with h | h
  · rw [h]; exact hs
  · rw [h]
    exact sized_table_of_bytes cfg _
      (write_bytes_length _ _ _ (table_bytes_length cfg s.default_layers hs))

theorem sized_settings_load_subtree (cfg : Config) (items : List StoredItem) :
    ∀ s : State, sized cfg s.default_layers →
      sized cfg (settings_load_subtree cfg items s).default_layers := by
  induction items with
  | nil => intro s hs; exact hs
  | cons it rest ih =>
    intro s hs
    simp only [settings_load_subtree, List.foldl_cons]
    exact ih _ (sized_default_layer_set cfg it.name it.len it.read_cb s hs)

/-- A name without the end marker `=` that `settings_name_steq` matches in full,
with nothing after it, is the key itself. -/
theorem steq_chars_exact : ∀ (n k : List Char), '=' ∉ n →
    settings_name_steq_chars n k = (true, none) → n = k
  | [], [], _, _ => rfl
  | c :: rest, [], hn, h => by
    simp only [settings_name_steq_chars] at h
    have hc : c ≠ '=' := fun hc => hn (by simp [hc])
    split_ifs at h <;> simp at h
  | [], _ :: _, _, h => by
    simp [settings_name_steq_chars] at h
  | c :: ns, k0 :: ks, hn, h => by
    simp only [settings_name_steq_chars] at h
    by_cases hk : k0 = c ∧ c ≠ '='
    · rw [if_pos hk] at h
      have hns : '=' ∉ ns := fun hm => hn (List.mem_cons_of_mem _ hm)
      rw [steq_chars_exact ns ks hns h, hk.1]
    · rw [if_neg hk] at h
      simp at h

/-- After the whole key and a `/`, `settings_name_steq` reports a sub-key. -/
theorem steq_chars_subkey : ∀ (k rest : List Char), '=' ∉ k →
    settings_name_steq_chars (k ++ '/' :: rest) k = (true, some rest)
  | [], rest, _ => by simp [settings_name_steq_chars]
  | c :: ks, rest, hk => by
    have hc : c ≠ '=' := fun hc => hk (by simp [hc])
    have hks : '=' ∉ ks := fun hm => hk (List.mem_cons_of_mem _ hm)
    simp only [List.cons_append, settings_name_steq_chars, hc, ne_eq, not_false_eq_true,
      and_self, if_true]
    exact steq_chars_subkey ks rest hks

/-! ## C13: an activation the keymap refuses -/

/-- C13. Let the keymap subsystem be the one the spec describes, with a negative
out-of-range code, and let the entry of the valid endpoint `e` be a layer `l` at or
above the keymap's currently configured layer count. Then
`apply_default_layer_config e` returns that negative code, the table is unchanged,
and after the one request of the call the layer that was active is still active. -/
theorem apply_rejected_by_keymap (cfg : Config) (env : Env) (k : Keymap)
    (e : zmk_endpoint_instance) (s : State) (l : Nat)
    (husb : cfg.ZMK_ENDPOINT_USB_COUNT = 1) (he : valid_endpoint cfg e)
    (hl : entry s.default_layers (slot_of e) = some l)
    (henv : ∀ layer, env.zmk_keymap_layer_to layer = (zmk_keymap_layer_to k layer).1)
    (hcode : k.out_of_range < 0) (hrej : k.layer_count ≤ l) :
    ∃ s1, apply_default_layer_config cfg env e s = some (k.out_of_range, s1)
      ∧ s1.default_layers = s.default_layers
      ∧ s1.trace = s.trace ++ [Call.zmk_keymap_layer_to l k.out_of_range]
      ∧ (keymap_after k (s1.trace.drop s.trace.length)).active = k.active := by
  have hret : env.zmk_keymap_layer_to l = k.out_of_range := by
    rw [henv l]
    simp [zmk_keymap_layer_to, hrej]
  have happ := apply_eq cfg env e s l husb he hl
  rw [hret, if_pos hcode] at happ
  refine ⟨_, happ, rfl, rfl, ?_⟩
  simp [keymap_after, zmk_keymap_layer_to, hrej]

/-- C13 on Scenario D: the table holds layer 7 for BLE profile 2, the keymap now has
four layers and layer 2 active; the apply fails with -22 and layer 2 stays active. -/
theorem apply_rejected_by_keymap_witness :
    ∃ s1, apply_default_layer_config sample_cfg
        (keymap_env (ble_endpoint 2) { layer_count := 4, active := 2, out_of_range := -22 })
        (ble_endpoint 2) sample_state = some (-22, s1)
      ∧ s1.default_layers = sample_state.default_layers
      ∧ s1.trace = sample_state.trace ++ [Call.zmk_keymap_layer_to 7 (-22)]
      ∧ (keymap_after { layer_count := 4, active := 2, out_of_range := -22 }
          (s1.trace.drop sample_state.trace.length)).active = 2 :=
  apply_rejected_by_keymap sample_cfg
    (keymap_env (ble_endpoint 2) { layer_count := 4, active := 2, out_of_range := -22 })
    { layer_count := 4, active := 2, out_of_range := -22 }
    (ble_endpoint 2) sample_state 7 (by decide) (by decide) (by decide)
    (fun _ => rfl) (by decide) (by decide)

/-! ## C14: boot with defaults -/

/-- C14. Start from the zero-initialised table, with a valid selected endpoint.
If `settings_register` answers 0 and every stored item that the handler takes for
the `settings` blob has a length other than `sizeof(default_layers)` (in particular
when the store holds no such item), `default_layer_init` returns; after it every
entry of the table is 0, the USB entry included, no read callback was called, and
the last call of the log is the request to the keymap to activate layer 0. -/
theorem boot_with_defaults (cfg : Config) (env : Env)
    (husb : cfg.ZMK_ENDPOINT_USB_COUNT = 1)
    (he : valid_endpoint cfg env.zmk_endpoints_selected)
    (hreg : env.settings_register = 0)
    (hstore : ∀ it ∈ env.stored, settings_name_steq it.name "settings" = (true, none) →
      it.len ≠ sizeof_default_layers cfg) :
    ∃ s1, default_layer_init cfg env (init_state cfg)
        = some (if env.zmk_keymap_layer_to 0 < 0 then env.zmk_keymap_layer_to 0 else 0, s1)
      ∧ s1.default_layers = zero_table cfg
      ∧ (∀ x ∈ table_bytes s1.default_layers, x = 0)
      ∧ entry s1.default_layers (Slot.usb 0) = some 0
      ∧ s1.trace = [Call.settings_subsys_init, Call.settings_register 0,
          Call.settings_load_subtree "default_layer",
          Call.zmk_keymap_layer_to 0 (env.zmk_keymap_layer_to 0)] := by
  obtain ⟨l, hl⟩ := entry_in_bounds cfg (zero_table cfg) env.zmk_endpoints_selected
    (sized_zero_table cfg) husb he
  have hl0 : l = 0 := entry_zero_table cfg _ l hl
  subst hl0
  have hinit : default_layer_init cfg env (init_state cfg)
      = some (if env.zmk_keymap_layer_to 0 < 0 then env.zmk_keymap_layer_to 0 else 0,
          { default_layers := zero_table cfg
            trace := [Call.settings_subsys_init, Call.settings_register 0,
              Call.settings_load_subtree "default_layer",
              Call.zmk_keymap_layer_to 0 (env.zmk_keymap_layer_to 0)] }) := by
    simp only [default_layer_init, hreg, ne_eq, not_true_eq_false, if_false]
    rw [settings_load_subtree_skip cfg env.stored _ hstore]
    rw [apply_eq cfg env env.zmk_endpoints_selected _ 0 husb he hl]
    simp [init_state]
  refine ⟨_, hinit, rfl, ?_, ?_, rfl⟩
  · intro x hx
    simp only [zero_table, table_bytes, List.mem_append, List.mem_replicate] at hx
    rcases hx with hx | hx <;> exact hx.2
  · simp [entry, zero_table, husb]

/-- C14 on Scenario A and its variant: the store holds a `settings` blob of three
bytes where four are expected and an item under another key; BLE profile 1 is
selected. -/
theorem boot_with_defaults_witness :
    ∃ s1, default_layer_init sample_cfg
        (boot_env (ble_endpoint 1) 0
          [sample_item "settings" 3 [5, 5, 5], sample_item "other" 4 [1, 2, 3, 4]] 0)
        (init_state sample_cfg)
        = some (if (boot_env (ble_endpoint 1) 0
              [sample_item "settings" 3 [5, 5, 5], sample_item "other" 4 [1, 2, 3, 4]]
              0).zmk_keymap_layer_to 0 < 0
            then (boot_env (ble_endpoint 1) 0
              [sample_item "settings" 3 [5, 5, 5], sample_item "other" 4 [1, 2, 3, 4]]
              0).zmk_keymap_layer_to 0
            else 0, s1)
      ∧ s1.default_layers = zero_table sample_cfg
      ∧ (∀ x ∈ table_bytes s1.default_layers, x = 0)
      ∧ entry s1.default_layers (Slot.usb 0) = some 0
      ∧ s1.trace = [Call.settings_subsys_init, Call.settings_register 0,
          Call.settings_load_subtree "default_layer",
          Call.zmk_keymap_layer_to 0 ((boot_env (ble_endpoint 1) 0
              [sample_item "settings" 3 [5, 5, 5], sample_item "other" 4 [1, 2, 3, 4]]
              0).zmk_keymap_layer_to 0)] :=
  boot_with_defaults sample_cfg
    (boot_env (ble_endpoint 1) 0
      [sample_item "settings" 3 [5, 5, 5], sample_item "other" 4 [1, 2, 3, 4]] 0)
    (by decide) (by decide) (by decide)
    (by
      intro it hit
      simp only [boot_env, List.mem_cons, List.mem_singleton, List.not_mem_nil,
        or_false] at hit
      rcases hit with h | h <;> subst h <;> decide)

/-! ## C15: results of the load handler -/

/-- C15. For every length, read callback and state: (a) for a name that is a key
(it carries no `=`, which Zephyr reads as the end of the name) other than
`settings`, `default_layer_set` returns `-ENOENT` and leaves the state as it was;
(b) so it does for `settings` followed by `/` and any sub-key; (c) for the key
`settings` with `len = sizeof(default_layers)` it returns 0 when the read callback
returns a non-negative value; (d) and otherwise returns the negative code of the
read callback unchanged. -/
theorem load_handler_result (cfg : Config) (name : String) (len : Nat)
    (read_cb : settings_read_cb) (s : State) :
    (name ≠ "settings" → '=' ∉ name.toList →
      default_layer_set cfg name len read_cb s = (-ENOENT, s))
    ∧ (∀ sub : String,
        default_layer_set cfg ("settings/" ++ sub) len read_cb s = (-ENOENT, s))
    ∧ (len = sizeof_default_layers cfg → 0 ≤ (read_cb (sizeof_default_layers cfg)).1 →
        (default_layer_set cfg "settings" len read_cb s).1 = 0)
    ∧ (len = sizeof_default_layers cfg → (read_cb (sizeof_default_layers cfg)).1 < 0 →
        (default_layer_set cfg "settings" len read_cb s).1
          = (read_cb (sizeof_default_layers cfg)).1) := by
  refine ⟨?_, ?_, ?_, ?_⟩
  · intro hname hkey
    have hm : ¬ ((settings_name_steq name "settings").1 = true
        ∧ (settings_name_steq name "settings").2 = none) := by
      intro hc
      have heq : settings_name_steq_chars name.toList "settings".toList = (true, none) :=
        Prod.ext hc.1 hc.2
      exact hname (String.ext (steq_chars_exact _ _ hkey heq))
    simp only [default_layer_set, hm, if_false]
  · intro sub
    have hlist : ("settings/" ++ sub).toList = "settings".toList ++ '/' :: sub.toList := by
      simp [String.toList, String.data_append]
    have hsteq : settings_name_steq ("settings/" ++ sub) "settings"
        = (true, some sub.toList) := by
      simp only [settings_name_steq]
      rw [hlist]
      exact steq_chars_subkey _ _ (by decide)
    simp only [default_layer_set, hsteq]
    simp
  · intro hlen hrc
    rw [default_layer_set_settings, hlen]
    simp [hrc]
  · intro hlen hrc
    rw [default_layer_set_settings, hlen]
    simp [not_le.mpr hrc]

/-- C15 at concrete inputs: another key, a sub-key, a successful read and a read
that fails with -5. -/
theorem load_handler_result_witness :
    default_layer_set sample_cfg "other" 4 (fun _ => (4, [1, 2, 3, 4])) sample_state
      = (-ENOENT, sample_state)
    ∧ default_layer_set sample_cfg ("settings/" ++ "usb") 4 (fun _ => (4, [1, 2, 3, 4]))
        sample_state = (-ENOENT, sample_state)
    ∧ (default_layer_set sample_cfg "settings" 4 (fun _ => (4, [1, 2, 3, 4]))
        sample_state).1 = 0
    ∧ (default_layer_set sample_cfg "settings" 4 (fun _ => (-5, [])) sample_state).1
        = (-5 : Int) :=
  ⟨(load_handler_result sample_cfg "other" 4 (fun _ => (4, [1, 2, 3, 4])) sample_state).1
      (by decide) (by decide),
   (load_handler_result sample_cfg "other" 4 (fun _ => (4, [1, 2, 3, 4])) sample_state).2.1
      "usb",
   (load_handler_result sample_cfg "settings" 4 (fun _ => (4, [1, 2, 3, 4]))
      sample_state).2.2.1 (by decide) (by decide),
   (load_handler_result sample_cfg "settings" 4 (fun _ => (-5, [])) sample_state).2.2.2
      (by decide) (by decide)⟩

/-! ## C16: the indices stay inside the arrays -/

/-- C16. For a table of the configured size and an endpoint that is USB (with
`ZMK_ENDPOINT_USB_COUNT == 1`) or BLE with `profile_index < ZMK_ENDPOINT_BLE_COUNT`,
the position the endpoint selects lies inside `usb[]` / `ble[]`, and neither
`save_default_layer_setting` (for any layer) nor `apply_default_layer_config` ends in
the result `none`, which stands for a failed assertion or an access outside the
arrays. -/
theorem index_safety (cfg : Config) (env : Env) (layer : Nat)
    (e : zmk_endpoint_instance) (s : State) (hs : sized cfg s.default_layers)
    (husb : e.transport = zmk_transport.ZMK_TRANSPORT_USB → cfg.ZMK_ENDPOINT_USB_COUNT = 1)
    (he : valid_endpoint cfg e) :
    (∃ l, entry s.default_layers (slot_of e) = some l)
    ∧ save_default_layer_setting cfg env layer e s ≠ none
    ∧ apply_default_layer_config cfg env e s ≠ none := by
  obtain ⟨hu, hb⟩ := hs
  obtain ⟨tr, idx⟩ := e
  cases tr
  · have h1 : cfg.ZMK_ENDPOINT_USB_COUNT = 1 := husb rfl
    have h0 : 0 < s.default_layers.usb.length := by omega
    refine ⟨⟨s.default_layers.usb[0], by simp [entry, slot_of, h0]⟩, ?_, ?_⟩
    · simp only [save_default_layer_setting, h1, h0, and_self, if_true]
      split_ifs <;> simp
    · have hg : s.default_layers.usb[0]? = some s.default_layers.usb[0] := by simp [h0]
      simp only [apply_default_layer_config, h1, if_true, hg]
      split_ifs <;> simp
  · simp only [valid_endpoint] at he
    have h0 : idx < s.default_layers.ble.length := by omega
    refine ⟨⟨s.default_layers.ble[idx], by simp [entry, slot_of, h0]⟩, ?_, ?_⟩
    · simp only [save_default_layer_setting, he, h0, and_self, if_true]
      split_ifs <;> simp
    · have hg : s.default_layers.ble[idx]? = some s.default_layers.ble[idx] := by simp [h0]
      simp only [apply_default_layer_config, he, if_true, hg]
      split_ifs <;> simp

/-- C16 at a concrete input: the last BLE profile of the sample configuration. -/
theorem index_safety_witness :
    (∃ l, entry sample_state.default_layers (slot_of (ble_endpoint 2)) = some l)
    ∧ save_default_layer_setting sample_cfg (sample_env usb_endpoint 0 0) 4
        (ble_endpoint 2) sample_state ≠ none
    ∧ apply_default_layer_config sample_cfg (sample_env usb_endpoint 0 0)
        (ble_endpoint 2) sample_state ≠ none :=
  index_safety sample_cfg (sample_env usb_endpoint 0 0) 4 (ble_endpoint 2) sample_state
    (by decide) (by decide) (by decide)

/-! ## C17: boot and the result of the registration -/

/-- C17. (a) If `settings_register` returns a non-zero code, `default_layer_init`
returns that code; the log holds only `settings_subsys_init` and `settings_register`,
so the subtree is not loaded and the keymap is not asked for anything, and the table
is what it was (zero-initialised at boot). (b) If it returns 0, `default_layer_init`
returns exactly what `apply_default_layer_config` returns for the selected endpoint
in the state the subtree load left, whatever the store held and whatever its handler
answered; on a table of the configured size and with a valid selected endpoint that
is a result. -/
theorem init_registration (cfg : Config) (env : Env) (s : State) :
    (env.settings_register ≠ 0 →
      default_layer_init cfg env s
        = some (env.settings_register,
            { s with trace := s.trace ++
                [Call.settings_subsys_init, Call.settings_register env.settings_register] }))
    ∧ (env.settings_register = 0 →
        default_layer_init cfg env s
          = apply_default_layer_config cfg env env.zmk_endpoints_selected
              (settings_load_subtree cfg env.stored
                { s with trace := s.trace ++
                    [Call.settings_subsys_init, Call.settings_register 0,
                     Call.settings_load_subtree "default_layer"] })
        ∧ (sized cfg s.default_layers → cfg.ZMK_ENDPOINT_USB_COUNT = 1 →
            valid_endpoint cfg env.zmk_endpoints_selected →
            ∃ r s1, default_layer_init cfg env s = some (r, s1))) := by
  constructor
  · intro hreg
    simp [default_layer_init, hreg]
  · intro hreg
    have hinit : default_layer_init cfg env s
          = apply_default_layer_config cfg env env.zmk_endpoints_selected
              (settings_load_subtree cfg env.stored
                { s with trace := s.trace ++
                    [Call.settings_subsys_init, Call.settings_register 0,
                     Call.settings_load_subtree "default_layer"] }) := by
      simp [default_layer_init, hreg]
    refine ⟨hinit, ?_⟩
    intro hs husb he
    have hsized := sized_settings_load_subtree cfg env.stored
      { s with trace := s.trace ++
          [Call.settings_subsys_init, Call.settings_register 0,
           Call.settings_load_subtree "default_layer"] } hs
    obtain ⟨l, hl⟩ := entry_in_bounds cfg _ env.zmk_endpoints_selected hsized husb he
    rw [hinit, apply_eq cfg env env.zmk_endpoints_selected _ l husb he hl]
    exact ⟨_, _, rfl⟩

/-- C17 at concrete inputs: a registration that fails with -12 on a fresh boot, and
a boot whose store holds the blob `[3, 1, 0, 7]` while the keymap refuses with -22. -/
theorem init_registration_witness :
    default_layer_init sample_cfg (boot_env usb_endpoint (-12) [] 0) (init_state sample_cfg)
      = some (-12, { default_layers := zero_table sample_cfg
                     trace := [Call.settings_subsys_init, Call.settings_register (-12)] })
    ∧ default_layer_init sample_cfg
        (boot_env (ble_endpoint 2) 0 [sample_item "settings" 4 [3, 1, 0, 7]] (-22))
        (init_state sample_cfg)
      = apply_default_layer_config sample_cfg
          (boot_env (ble_endpoint 2) 0 [sample_item "settings" 4 [3, 1, 0, 7]] (-22))
          (ble_endpoint 2)
          { default_layers := { usb := [3], ble := [1, 0, 7] }
            trace := [Call.settings_subsys_init, Call.settings_register 0,
                      Call.settings_load_subtree "default_layer", Call.read_cb 4 4] }
    ∧ ∃ r s1, default_layer_init sample_cfg
        (boot_env (ble_endpoint 2) 0 [sample_item "settings" 4 [3, 1, 0, 7]] (-22))
        (init_state sample_cfg) = some (r, s1) :=
  ⟨(init_registration sample_cfg (boot_env usb_endpoint (-12) [] 0)
      (init_state sample_cfg)).1 (by decide),
   ((init_registration sample_cfg
      (boot_env (ble_endpoint 2) 0 [sample_item "settings" 4 [3, 1, 0, 7]] (-22))
      (init_state sample_cfg)).2 rfl).1,
   ((init_registration sample_cfg
      (boot_env (ble_endpoint 2) 0 [sample_item "settings" 4 [3, 1, 0, 7]] (-22))
      (init_state sample_cfg)).2 rfl).2 (by decide) (by decide) (by decide)⟩

end DefaultLayer
